import Mathlib

/-!
Shallow embedding of the BlueStacks agent SDK client
(`src/bluestacks/agent.py`, `src/bluestacks/types.py`,
`src/bluestacks/errors.py`) and proofs about its session/task
lifecycle manager and event-stream consumer.
-/

namespace Bluestacks

/-- A Python/JSON value as handled by the SDK: the payloads parsed from
`resp.json()` / SSE `data:` lines, and the dynamically typed fields the
SDK copies out of them.  `null` models Python `None`. -/
inductive JVal where
  | null
  | bool (b : Bool)
  | int (n : Int)
  | str (s : String)
  | list (xs : List JVal)
  | dict (kvs : List (String × JVal))

/-- Python truthiness (`bool(v)`) for the values above: `None`, `False`,
`0`, `""`, `[]` and `\x7b\x7d` are falsy. -/
def JVal.truthy : JVal → Bool
  | .null => false
  | .bool b => b
  | .int n => n != 0
  | .str s => s != ""
  | .list xs => !xs.isEmpty
  | .dict kvs => !kvs.isEmpty

/-- Key lookup in a dict value (Python dict keys are unique; the source
dicts come from JSON).  Returns `none` on a missing key or a non-dict. -/
def JVal.lookup : JVal → String → Option JVal
  | .dict kvs, k => kvs.lookup k
  | _, _ => none

/-- `d.get(k, default)` restricted to dict receivers. -/
def JVal.getD (v : JVal) (k : String) (dflt : JVal) : JVal :=
  (v.lookup k).getD dflt

/-- Python `a or b` where `a` is the result of a `dict.get` (possibly
absent, i.e. `None`): returns `a` when truthy, else `b`. -/
def pyOr (a : Option JVal) (b : JVal) : JVal :=
  match a with
  | some v => if v.truthy then v else b
  | none => b

/-- `str(v)`.  Exact for the scalar values the SDK interpolates into its
messages; the rendering of composite values (never relied on by any of the
theorems below) is abbreviated. -/
def JVal.pyStr : JVal → String
  | .null => "None"
  | .bool true => "True"
  | .bool false => "False"
  | .int n => toString n
  | .str s => s
  | .list _ => "[...]"
  | .dict _ => "(dict)"

/-- Python whitespace recognised by `str.strip()` (ASCII subset; the
source only ever strips ASCII protocol text and user queries). -/
def isPySpace (c : Char) : Bool :=
  c = ' ' || c = '\t' || c = '\n' || c = '\r' || c = '\x0b' || c = '\x0c'

/-- `s.strip()`: drop leading and trailing whitespace. -/
def pyStrip (s : String) : String :=
  String.mk (((s.toList.dropWhile isPySpace).reverse.dropWhile isPySpace).reverse)

/-- Exceptions that can propagate through the modelled code paths:
`BluestacksSDKError` (with its message and machine code), and the
builtin errors the source can raise when a payload has an unexpected
shape (`KeyError` from `d[k]`, `TypeError` from `len`/`+`,
`AttributeError` from `.get` on a non-dict). -/
inductive PyExc where
  | sdkError (message : JVal) (code : JVal)
  | keyError (k : String)
  | typeError (msg : String)
  | attributeError (msg : String)

/-- `BluestacksSDKError.__init__` (src/bluestacks/errors.py): the stored
code is `code or "sdk_error"`. -/
def mkSDKError (message : JVal) (code : Option JVal) : PyExc :=
  .sdkError message (pyOr code (.str "sdk_error"))

/-- `str(e)`: the base class passes `f"(message)\nError code: (code)"`
to `Exception.__init__`; builtin exception messages are abbreviated
(no theorem depends on their exact text). -/
def PyExc.pyStr : PyExc → String
  | .sdkError m c => m.pyStr ++ "\nError code: " ++ c.pyStr
  | .keyError k => "'" ++ k ++ "'"
  | .typeError m => m
  | .attributeError m => m

/-- `repr(e)` as interpolated into the synthetic error event
(abbreviated; no theorem depends on its exact text). -/
def PyExc.pyRepr (e : PyExc) : String := e.pyStr

/-- The error code used at the `RunResult` surface:
`e.code if isinstance(e, BluestacksSDKError) else "sdk_runtime_error"`. -/
def PyExc.errCode : PyExc → JVal
  | .sdkError _ c => c
  | _ => .str "sdk_runtime_error"

/-- `d.get(k)` with Python semantics: raises `AttributeError` when the
receiver is not a dict, otherwise returns the value or `None`
(modelled as `Option`). -/
def pyGet (v : JVal) (k : String) : Except PyExc (Option JVal) :=
  match v with
  | .dict kvs => .ok (kvs.lookup k)
  | _ => .error (.attributeError ("no attribute get (key " ++ k ++ ")"))

/-- `d.get(k, dflt)` with the same receiver check. -/
def pyGetD (v : JVal) (k : String) (dflt : JVal) : Except PyExc JVal :=
  (pyGet v k).map (fun o => o.getD dflt)

/-- `d[k]`: `KeyError` on a missing key, `TypeError` on a non-dict. -/
def pyIndex (v : JVal) (k : String) : Except PyExc JVal :=
  match v with
  | .dict kvs =>
    match kvs.lookup k with
    | some x => .ok x
    | none => .error (.keyError k)
  | _ => .error (.typeError ("value is not subscriptable by " ++ k))

/-- `len(v)`: defined for sized values (str, list, dict); raises
`TypeError` otherwise (numbers, booleans, `None`). -/
def pyLen : JVal → Except PyExc Nat
  | .str s => .ok s.length
  | .list xs => .ok xs.length
  | .dict kvs => .ok kvs.length
  | _ => .error (.typeError "object has no len()")

/-- `"..." + v`: string concatenation, `TypeError` when `v` is not a
string (as in the default console block of `_handle_sse_event`). -/
def pyConcat (a : String) (v : JVal) : Except PyExc String :=
  match v with
  | .str s => .ok (a ++ s)
  | _ => .error (.typeError "can only concatenate str to str")

/-- Replace or append a key in a dict's binding list (`event["output"] =
output`): Python replaces an existing binding in place, otherwise
appends in insertion order. -/
def setPairs : List (String × JVal) → String → JVal → List (String × JVal)
  | [], k, v => [(k, v)]
  | (k₀, v₀) :: rest, k, v =>
    if k₀ = k then (k, v) :: rest else (k₀, v₀) :: setPairs rest k v

/-- `event[k] = v` on a dict (every event built by the source is a dict). -/
def JVal.dictSet : JVal → String → JVal → JVal
  | .dict kvs, k, v => .dict (setPairs kvs k v)
  | w, _, _ => w

/-- `RunResult` (src/bluestacks/types.py).  Dynamically typed fields are
`JVal` with `null` standing for Python `None`; `reason` is always an
SDK-built `str`. -/
structure RunResult where
  success : Bool
  output : JVal
  reason : String
  error_code : JVal
  needs_input : Bool
  input_prompt : JVal
  responses : JVal
  delta : JVal
  raw : JVal

/-- Whether a value is Python `None`. -/
def JVal.isNull : JVal → Bool
  | .null => true
  | _ => false

/-- The spec's shape invariant on `RunResult`:
`success = true` implies `error_code` empty/None and `reason` empty;
`success = false` implies a non-empty (truthy) `error_code`. -/
def shapeOK (r : RunResult) : Bool :=
  if r.success then r.error_code.isNull && r.reason == ""
  else r.error_code.truthy

/-- The single-slot pending-turn future `_pending_turn_future`:
absent (`None`), created but unresolved, or resolved with a result. -/
inductive Pending where
  | noFuture
  | waiting
  | done (r : RunResult)

/-- The per-instance mutable state of `BluestacksAgent` relevant to the
claims: session id, current task id, the SSE consumer task
(`stream_live` = `_event_stream_task is not None and not done()`),
the stop flag, the pending-turn slot, and the callback registration /
console flags set in `__init__` and `set_callbacks`. -/
structure AgentState where
  session_id : JVal
  current_task_id : JVal
  stream_live : Bool
  stop_stream : Bool
  pending : Pending
  on_event_set : Bool
  on_progress_set : Bool
  on_waiting_input_set : Bool
  on_completed_set : Bool
  use_default_callbacks : Bool
  print_progress : Bool

/-- A freshly constructed client with default arguments: no session, no
task, no stream, no pending turn, default callbacks enabled. -/
def freshState : AgentState :=
  { session_id := .null
    current_task_id := .null
    stream_live := false
    stop_stream := false
    pending := .noFuture
    on_event_set := false
    on_progress_set := false
    on_waiting_input_set := false
    on_completed_set := false
    use_default_callbacks := true
    print_progress := true }

/-- Observable effects of a call, in program order: HTTP requests,
callback dispatches (`_maybe_await` returns immediately when the slot
is unregistered and swallows handler exceptions, so a dispatch is the
full extent of its effect), console reads, and resolutions of the
pending-turn future (`set_result`). -/
inductive Action where
  | post (path : String)
  | get (path : String)
  | cbEvent (ev : JVal)
  | cbProgress (ev : JVal)
  | cbWaitingInput (ev : JVal)
  | cbCompleted (ev : JVal)
  | consoleRead
  | resolveTurn (r : RunResult)

/-- Whether an action is a network request. -/
def Action.isNet : Action → Bool
  | .post _ => true
  | .get _ => true
  | _ => false

/-- Outcome of one HTTP request as seen by `_post`/`_get`: a timeout, a
non-timeout transport failure, or a response with a status code and a
body (`none` = the body is not valid JSON). -/
inductive HttpOutcome where
  | timeout
  | transportError
  | response (status : Nat) (body : Option JVal)

/-- `_post` (src/bluestacks/agent.py lines 322-370): classify the
outcome of exactly one request.  Timeout and transport errors raise
`BluestacksSDKError` with fixed codes; a non-JSON body raises
`invalid_response`; a non-200 status raises with the server's
`error`/`message` fields falling back to `"http_error"` /
`"HTTP (status)"`; a 200 JSON body is returned parsed. -/
def postResult (path : String) (o : HttpOutcome) : Except PyExc JVal :=
  match o with
  | .timeout =>
    .error (mkSDKError (.str "Connection with BlueStacks AppPlayer timed out")
      (some (.str "connection_timeout")))
  | .transportError =>
    .error (mkSDKError (.str "Could not connect to BlueStacks AppPlayer. Please ensure that BlueStacks AppPlayer is running and you have configured API_KEY properly")
      (some (.str "connection_failed")))
  | .response status body =>
    match body with
    | none =>
      .error (mkSDKError (.str ("Non-JSON response from " ++ path))
        (some (.str "invalid_response")))
    | some data =>
      if status ≠ 200 then
        match pyGet data "error", pyGet data "message" with
        | .ok e, .ok m =>
          .error (mkSDKError (pyOr m (.str ("HTTP " ++ toString status)))
            (some (pyOr e (.str "http_error"))))
        | .error exc, _ => .error exc
        | _, .error exc => .error exc
      else .ok data

/-- `_get` (src/bluestacks/agent.py lines 372-418): identical
classification to `_post` except for the timeout message text. -/
def getResult (path : String) (o : HttpOutcome) : Except PyExc JVal :=
  match o with
  | .timeout =>
    .error (mkSDKError (.str "Connection with App Player timed out")
      (some (.str "connection_timeout")))
  | .transportError =>
    .error (mkSDKError (.str "Could not connect to BlueStacks AppPlayer. Please ensure that BlueStacks AppPlayer is running and you have configured API_KEY properly")
      (some (.str "connection_failed")))
  | .response status body =>
    match body with
    | none =>
      .error (mkSDKError (.str ("Non-JSON response from " ++ path))
        (some (.str "invalid_response")))
    | some data =>
      if status ≠ 200 then
        match pyGet data "error", pyGet data "message" with
        | .ok e, .ok m =>
          .error (mkSDKError (pyOr m (.str ("HTTP " ++ toString status)))
            (some (pyOr e (.str "http_error"))))
        | .error exc, _ => .error exc
        | _, .error exc => .error exc
      else .ok data

/-- Python `v == "s"` where `v` came from `dict.get` (possibly absent):
true exactly when the value is the string `s`. -/
def isStrVal (v : Option JVal) (s : String) : Bool :=
  match v with
  | some (.str t) => t == s
  | _ => false

/-- `repr(v)` as interpolated into error messages (abbreviated; no result
below depends on its exact text). -/
def JVal.pyRepr (v : JVal) : String := v.pyStr

/-- The `SessionCreationError` message
`f"(error): (message) (response: (data!r))"` built in `_ensure_session`. -/
def sessionFailMsg (data : JVal) : String :=
  (data.getD "error" (.str "session_creation_failed")).pyStr ++ ": " ++
    (data.getD "message" (.str "Unknown session creation error")).pyStr ++
    " (response: " ++ data.pyRepr ++ ")"

/-- `_ensure_session` (agent.py lines 424-460): return the cached id if
`_session_id is not None`; otherwise `POST /v1/session/create`, require
`status == "success"`, cache and return `data["session_id"]`. -/
def ensureSession (o : HttpOutcome) (st : AgentState) :
    AgentState × List Action × Except PyExc JVal :=
  if !st.session_id.isNull then (st, [], .ok st.session_id)
  else
    let acts := [Action.post "/v1/session/create"]
    match postResult "/v1/session/create" o with
    | .error e => (st, acts, .error e)
    | .ok data =>
      match pyGet data "status" with
      | .error e => (st, acts, .error e)
      | .ok status? =>
        if !(isStrVal status? "success") then
          (st, acts, .error (mkSDKError (.str (sessionFailMsg data))
            (some (.str "session_creation_failed"))))
        else
          match pyIndex data "session_id" with
          | .error e => (st, acts, .error e)
          | .ok sid => ({st with session_id := sid}, acts, .ok sid)

/-- The `TaskStartError` message built in `_start_task`. -/
def taskStartFailMsg (data : JVal) : String :=
  (data.getD "error" (.str "task_start_failed")).pyStr ++ ": " ++
    (data.getD "message" (.str "Unknown task start error")).pyStr ++
    " (response: " ++ data.pyRepr ++ ")"

/-- `_start_task(query)` (agent.py lines 510-544): ensure a session,
`POST /v1/task/create`, require `status == "success"`, store and return
`data["task_id"]`.  The query travels in the request body (not part of
the observable trace). -/
def startTaskCall (sessResp createResp : HttpOutcome) (st : AgentState) (_query : String) :
    AgentState × List Action × Except PyExc JVal :=
  let (st₁, a₁, r₁) := ensureSession sessResp st
  match r₁ with
  | .error e => (st₁, a₁, .error e)
  | .ok _ =>
    let acts := a₁ ++ [Action.post "/v1/task/create"]
    match postResult "/v1/task/create" createResp with
    | .error e => (st₁, acts, .error e)
    | .ok data =>
      match pyGet data "status" with
      | .error e => (st₁, acts, .error e)
      | .ok status? =>
        if !(isStrVal status? "success") then
          (st₁, acts, .error (mkSDKError (.str (taskStartFailMsg data))
            (some (.str "task_start_failed"))))
        else
          match pyIndex data "task_id" with
          | .error e => (st₁, acts, .error e)
          | .ok tid => ({st₁ with current_task_id := tid}, acts, .ok tid)

/-- `_ensure_event_stream` (agent.py lines 546-567): requires an active
session and task; a no-op when the consumer task is already live;
otherwise clears the stop flag and spawns the consumer
(`asyncio.create_task(self._event_stream_loop())`). -/
def ensureEventStream (st : AgentState) : AgentState × Except PyExc Unit :=
  if st.session_id.isNull || st.current_task_id.isNull then
    (st, .error (mkSDKError (.str "Cannot start SSE stream without active session/task")
      (some (.str "invalid_state"))))
  else if st.stream_live then (st, .ok ())
  else ({st with stop_stream := false, stream_live := true}, .ok ())

/-- The synthetic error-shaped event built by
`_fail_pending_turn_gracefully` (agent.py lines 584-596). -/
def errEvent (reason : String) (excRepr : JVal) : JVal :=
  .dict [("type", .str "task_error"),
    ("data", .dict [("reason", .str reason), ("exception", excRepr)]),
    ("step_index", .null), ("task_state", .str "error"), ("timestamp", .null),
    ("responses", .list []), ("delta", .null), ("output", .str "")]

/-- `_fail_pending_turn_gracefully(reason, exc)` (agent.py lines
569-614): a no-op unless a pending-turn future exists and is
unresolved; otherwise dispatch the `task_error` event to `on_completed`
and resolve the future with a failure `RunResult`
(`error_code="event_stream_error"`). -/
def failPendingTurnGracefully (reason : String) (excRepr : JVal) (st : AgentState) :
    AgentState × List Action :=
  match st.pending with
  | .waiting =>
    let ev := errEvent reason excRepr
    let r : RunResult :=
      { success := false, output := .str "", reason := reason,
        error_code := .str "event_stream_error", needs_input := false,
        input_prompt := .null, responses := .list [], delta := .null, raw := ev }
    ({st with pending := .done r}, [.cbCompleted ev, .resolveTurn r])
  | _ => (st, [])

/-- The guard-and-create prefix of `_wait_for_turn_completion` (agent.py
lines 836-852): raise `task_turn_in_progress` when an unresolved future
exists, otherwise install a fresh future. -/
def waitBegin (st : AgentState) : AgentState × Except PyExc Unit :=
  match st.pending with
  | .waiting =>
    (st, .error (mkSDKError (.str "Another task turn is already waiting for completion. Wait for it to finish before starting/resuming again.")
      (some (.str "task_turn_in_progress"))))
  | _ => ({st with pending := .waiting}, .ok ())

/-- The `await`-and-`finally` suffix of `_wait_for_turn_completion` (and
of `resume_task`'s normal path): once the future is resolved, return its
result and clear the slot; while unresolved the caller stays blocked. -/
def waitFinish (st : AgentState) : AgentState × Option RunResult :=
  match st.pending with
  | .done r => ({st with pending := .noFuture}, some r)
  | _ => (st, none)

/-- External inputs of the event-stream consumer: the JSON decoder
(`json.loads`, `none` = raises `JSONDecodeError`), the operator line
read by the default await-input policy, and the outcome of the
`/v1/task/resume` call that policy issues. -/
structure Env where
  jsonParse : String → Option JVal
  consoleInput : String
  resumeResp : HttpOutcome

/-- The default console block for `task_completed` frames (agent.py
lines 733-740), reached when printing is on, no completion callback is
registered and default callbacks are enabled.  It indexes
`event["data"]["result"]` (KeyError when absent) and concatenates the
`output`/`message` field to a string (TypeError when not a string);
returns the exception it raises, if any. -/
def completedConsoleBlock (payload : JVal) : Option PyExc :=
  match pyIndex payload "result" with
  | .error e => some e
  | .ok task_result =>
    match pyGet task_result "status" with
    | .error e => some e
    | .ok status? =>
      if isStrVal status? "success" then
        match pyConcat "[BlueStacks Agent]: " (task_result.getD "output" (.str "")) with
        | .error e => some e
        | .ok _ => none
      else
        match pyConcat "[BlueStacks Agent]: Error: " (task_result.getD "message" (.str "")) with
        | .error e => some e
        | .ok _ => none

/-- The default await-input policy (agent.py lines 773-798): read one
console line (`_read_console_input` swallows its own errors) and, when
a session and task are active, `POST /v1/task/resume` with that text; a
failure of that call fails the pending turn gracefully. -/
def awaitInputDefault (env : Env) (st : AgentState) : AgentState × List Action :=
  let acts := [Action.consoleRead]
  if !st.session_id.isNull && !st.current_task_id.isNull then
    let acts := acts ++ [Action.post "/v1/task/resume"]
    match postResult "/v1/task/resume" env.resumeResp with
    | .error e =>
      let (st', a') := failPendingTurnGracefully e.pyStr (.str e.pyRepr) st
      (st', acts ++ a')
    | .ok _ => (st, acts)
  else (st, acts)

/-- The event name stored in the event dict (`Optional[str]`). -/
def nameVal : Option String → JVal
  | some s => .str s
  | none => .null

/-- The `task_completed` branch of `_handle_sse_event` (agent.py lines
800-834): extract `result.output`/`result.status`, `success = status ==
"success"`, `error_code = result.error or "task_failed"` on failure, set
`event["output"]`, log (interpolating `len(output)`, which raises
TypeError for an unsized output — agent.py line 814), dispatch
`on_completed`, and resolve the pending turn if one is unresolved. -/
def completedBranch (st : AgentState) (result_block responses delta ev : JVal)
    (acts : List Action) : AgentState × List Action × Option PyExc :=
  match pyGetD result_block "output" (.str "") with
  | .error e => (st, acts, some e)
  | .ok output =>
    let success := isStrVal (result_block.lookup "status") "success"
    let error_code :=
      if success then JVal.null else pyOr (result_block.lookup "error") (.str "task_failed")
    let ev := ev.dictSet "output" output
    match pyLen output with
    | .error e => (st, acts, some e)
    | .ok _ =>
      let acts := acts ++ [Action.cbCompleted ev]
      match st.pending with
      | .waiting =>
        let r : RunResult :=
          { success := success, output := output,
            reason := if success then "" else "task_failed",
            error_code := error_code, needs_input := false, input_prompt := .null,
            responses := responses, delta := delta, raw := ev }
        ({st with pending := .done r}, acts ++ [.resolveTurn r], none)
      | _ => (st, acts, none)

/-- The `responses` convenience field:
`payload.get("responses", []) or []`. -/
def respField (pkvs : List (String × JVal)) : JVal :=
  let v := (List.lookup "responses" pkvs).getD (.list [])
  if v.truthy then v else .list []

/-- The `result` sub-object: `payload.get("result", \x7b\x7d) or \x7b\x7d`. -/
def resultField (pkvs : List (String × JVal)) : JVal :=
  let v := (List.lookup "result" pkvs).getD (.dict [])
  if v.truthy then v else .dict []

/-- The convenience-field event dict built by `_handle_sse_event`
(agent.py lines 719-727), keys in insertion order. -/
def builtEvent (name : Option String) (pkvs : List (String × JVal)) : JVal :=
  .dict [("type", nameVal name), ("data", .dict pkvs),
    ("step_index", (List.lookup "step_index" pkvs).getD .null),
    ("task_state", (List.lookup "task_state" pkvs).getD .null),
    ("timestamp", (List.lookup "timestamp" pkvs).getD .null),
    ("responses", respField pkvs),
    ("delta", (List.lookup "delta" pkvs).getD .null)]

/-- The body of `_handle_sse_event` on a dict payload (agent.py lines
712-834): build the event dict, run the default console block for
completed frames, dispatch `on_event`, then branch on the event name.
The `task_progress` console block (lines 742-763) guards every access
and wraps printing in try/except, so it has no modellable effect. -/
def handleDict (env : Env) (st : AgentState) (event_name : Option String)
    (pkvs : List (String × JVal)) : AgentState × List Action × Option PyExc :=
  let ev := builtEvent event_name pkvs
  let consoleCrash :=
    if st.print_progress && event_name == some "task_completed" &&
        !st.on_completed_set && st.use_default_callbacks then
      completedConsoleBlock (.dict pkvs)
    else none
  match consoleCrash with
  | some e => (st, [], some e)
  | none =>
    let acts := [Action.cbEvent ev]
    if event_name == some "task_progress" then
      (st, acts ++ [Action.cbProgress ev], none)
    else if event_name == some "task_await_input" then
      if st.on_waiting_input_set then (st, acts ++ [Action.cbWaitingInput ev], none)
      else if st.use_default_callbacks then
        let (st', a') := awaitInputDefault env st
        (st', acts ++ a', none)
      else (st, acts, none)
    else if event_name == some "task_completed" then
      completedBranch st (resultField pkvs) (respField pkvs)
        ((List.lookup "delta" pkvs).getD .null) ev acts
    else (st, acts, none)

/-- `_handle_sse_event` after JSON decoding: on a non-dict payload the
very first convenience access `payload.get("step_index")` raises
`AttributeError` (agent.py line 712). -/
def handlePayload (env : Env) (st : AgentState) (event_name : Option String)
    (payload : JVal) : AgentState × List Action × Option PyExc :=
  match payload with
  | .dict pkvs => handleDict env st event_name pkvs
  | _ => (st, [], some (.attributeError "no attribute get (key step_index)"))

/-- `_handle_sse_event` (agent.py lines 698-710): decode the joined data
lines as JSON; on `JSONDecodeError` degrade to the raw-text payload
`\x7b"raw": data_str\x7d` and continue. -/
def handleSSEEvent (env : Env) (st : AgentState) (event_name : Option String)
    (data_str : String) : AgentState × List Action × Option PyExc :=
  let payload :=
    match env.jsonParse data_str with
    | some v => v
    | none => .dict [("raw", .str data_str)]
  handlePayload env st event_name payload

/-- Character-list comparison underlying `str.startswith`. -/
def charsLead : List Char → List Char → Bool
  | [], _ => true
  | _ :: _, [] => false
  | p :: ps, c :: cs => p == c && charsLead ps cs

/-- Python `s.startswith(p)`. -/
def pyStartsWith (s p : String) : Bool := charsLead p.toList s.toList

/-- One line of the SSE wire grammar as consumed by `_event_stream_loop`
(agent.py lines 646-683).  State is the accumulated event name and data;
the result is the new state plus the frame to dispatch, if any.  The raw
line is stripped; a blank line dispatches the accumulated frame (when
data is present) and resets both accumulators; `": keepalive"` is
skipped; `event:`/`data:` lines update the accumulators (multiple data
lines are newline-joined); anything else is ignored. -/
def sseStep (nm : Option String) (dat : Option String) (raw : String) :
    Option String × Option String × Option (Option String × String) :=
  let line := pyStrip raw
  if line == "" then
    match dat with
    | some d => (none, none, some (nm, d))
    | none => (none, none, none)
  else if line == ": keepalive" then (nm, dat, none)
  else if pyStartsWith line "event:" then (some (pyStrip (line.drop 6)), dat, none)
  else if pyStartsWith line "data:" then
    let part := pyStrip (line.drop 5)
    match dat with
    | none => (nm, some part, none)
    | some d => (nm, some (d ++ "\n" ++ part), none)
  else (nm, dat, none)

/-- How the line iterator terminates once the given lines are exhausted:
the stream ends normally, or a transport/HTTP failure (including a
failure to open the stream or of `raise_for_status`) raises. -/
inductive StreamEnd where
  | eof
  | exc (e : PyExc)

/-- The `try` body of `_event_stream_loop` (agent.py lines 637-687):
consume lines (checking the stop flag before each), dispatch completed
frames through `_handle_sse_event`, and report the exception (if any)
that ended the loop — a handler crash or the iterator's own failure.
The except clause stores that exception as `error` for the finally. -/
def streamBody (env : Env) (st : AgentState) (nm : Option String) (dat : Option String)
    (lines : List String) (endk : StreamEnd) : AgentState × List Action × Option PyExc :=
  match lines with
  | [] =>
    match endk with
    | .eof => (st, [], none)
    | .exc e => (st, [], some e)
  | raw :: rest =>
    if st.stop_stream then (st, [], none)
    else
      match sseStep nm dat raw with
      | (nm', dat', disp) =>
        match disp with
        | some (fn, fd) =>
          let (st', a₁, crash) := handleSSEEvent env st fn fd
          match crash with
          | some e => (st', a₁, some e)
          | none =>
            let (st'', a₂, err) := streamBody env st' nm' dat' rest endk
            (st'', a₁ ++ a₂, err)
        | none => streamBody env st nm' dat' rest endk

/-- The `finally` block of `_event_stream_loop` (agent.py lines
689-696): build the failure reason from the stored error (or the
lost-connection text) and fail any unresolved pending turn gracefully. -/
def streamLoopFinalize (error : Option PyExc) (st : AgentState) :
    AgentState × List Action :=
  let reason :=
    match error with
    | some e => "Event stream error: " ++ e.pyStr
    | none => "[BlueStacks Agent]: ERROR: Lost connection to BlueStacks AppPlayer. Please check if BlueStacks AppPlayer is running."
  failPendingTurnGracefully reason
    (match error with | some e => .str e.pyRepr | none => .null) st

/-- `_event_stream_loop` (agent.py lines 616-696): an early return when
no session/task is active (before the try, so no finalisation);
otherwise open the stream (`GET /v1/task/stream`), run the body over the
stream's lines, and always run the finally block. -/
def eventStreamLoop (env : Env) (st : AgentState) (lines : List String)
    (endk : StreamEnd) : AgentState × List Action :=
  if st.session_id.isNull || st.current_task_id.isNull then (st, [])
  else
    let a₀ := [Action.get "/v1/task/stream"]
    let (st₁, a₁, err) := streamBody env st none none lines endk
    let (st₂, a₂) := streamLoopFinalize err st₁
    (st₂, a₀ ++ a₁ ++ a₂)

/-- A Python argument of unconstrained static type, as validated by the
public entry points (`None`, a string, or something else such as an
int). -/
inductive PyArg where
  | none
  | str (s : String)
  | int (n : Int)

/-- The shared argument guard of `run_task`/`resume_task`:
`q is None or not isinstance(q, str) or q.strip() == ""`. -/
def argInvalid : PyArg → Bool
  | .none => true
  | .int _ => true
  | .str s => pyStrip s == ""

/-- The synchronous `invalid_argument` failure result. -/
def invalidArgResult (reason : String) : RunResult :=
  { success := false, output := .str "", reason := reason,
    error_code := .str "invalid_argument", needs_input := false,
    input_prompt := .null, responses := .list [], delta := .null, raw := .null }

/-- How a public turn-level call leaves its caller: returned with a
result without ever suspending on the pending-turn future, or suspended
awaiting that future (resolved later by the consumer; see
`waitFinish`). -/
inductive CallOutcome where
  | returned (r : RunResult)
  | awaitingTurn

/-- The `except` clause of `run_task` (agent.py lines 885-901): fail the
pending turn gracefully with `str(e)`, then return a failure result
whose code is `e.code` for SDK errors and `"sdk_runtime_error"`
otherwise. -/
def runTaskExcept (st : AgentState) (acts : List Action) (e : PyExc) :
    AgentState × List Action × CallOutcome :=
  let (st', a') := failPendingTurnGracefully e.pyStr (.str e.pyRepr) st
  let r : RunResult :=
    { success := false, output := .str "", reason := e.pyStr,
      error_code := e.errCode, needs_input := false, input_prompt := .null,
      responses := .list [], delta := .null, raw := .null }
  (st', acts ++ a', .returned r)

/-- `run_task(query)` (agent.py lines 860-901): fail fast on an invalid
argument with no I/O; otherwise start the task, ensure the stream, and
begin waiting for the turn; any exception is converted through the
except clause. -/
def runTask (sessResp createResp : HttpOutcome) (st : AgentState) (query : PyArg) :
    AgentState × List Action × CallOutcome :=
  if argInvalid query then
    (st, [], .returned (invalidArgResult "ERROR: run_task(query) requires a non-empty string"))
  else
    let q := match query with | .str s => s | _ => ""
    let (st₁, a₁, r₁) := startTaskCall sessResp createResp st q
    match r₁ with
    | .error e => runTaskExcept st₁ a₁ e
    | .ok _ =>
      match ensureEventStream st₁ with
      | (st₂, .error e) => runTaskExcept st₂ a₁ e
      | (st₂, .ok _) =>
        match waitBegin st₂ with
        | (st₃, .error e) => runTaskExcept st₃ a₁ e
        | (st₃, .ok _) => (st₃, a₁, .awaitingTurn)

/-- `status not in (None, "accepted", "in_progress", "success")` on the
`/v1/task/resume` response (`dict.get` yields `None` both for a missing
key and an explicit null). -/
def resumeStatusOk : Option JVal → Bool
  | Option.none => true
  | some .null => true
  | some (.str t) => t == "accepted" || t == "in_progress" || t == "success"
  | some _ => false

/-- The `except` clause of `resume_task` plus its `finally` (agent.py
lines 1009-1028): fail the pending turn gracefully, return the failure
result, and clear the pending slot. -/
def resumeExcept (st : AgentState) (acts : List Action) (e : PyExc) :
    AgentState × List Action × CallOutcome :=
  let (st', a') := failPendingTurnGracefully e.pyStr (.str e.pyRepr) st
  let r : RunResult :=
    { success := false, output := .str "", reason := e.pyStr,
      error_code := e.errCode, needs_input := false, input_prompt := .null,
      responses := .list [], delta := .null, raw := .null }
  ({st' with pending := .noFuture}, acts ++ a', .returned r)

/-- `resume_task(new_query)` (agent.py lines 903-1028): argument guard,
`no_active_task` guard, `task_turn_in_progress` guard (all before the
try, so the existing pending slot is untouched); then create the
future, ensure the stream, `POST /v1/task/resume`, reject a bad status
(failing the just-created turn and returning the server's error code),
or await the turn.  The `finally` clears the pending slot on every path
inside the try. -/
def resumeTask (resumeResp : HttpOutcome) (st : AgentState) (q : PyArg) :
    AgentState × List Action × CallOutcome :=
  if argInvalid q then
    (st, [], .returned (invalidArgResult "ERROR: resume_task(new_query) requires a non-empty string"))
  else if st.session_id.isNull || st.current_task_id.isNull then
    let r : RunResult :=
      { success := false, output := .str "", reason := "No active task to resume",
        error_code := .str "no_active_task", needs_input := false,
        input_prompt := .null, responses := .list [], delta := .null, raw := .null }
    (st, [], .returned r)
  else
    match st.pending with
    | .waiting =>
      let r : RunResult :=
        { success := false, output := .str "",
          reason := "Another task turn is already waiting for completion. Wait for it to finish before resuming again.",
          error_code := .str "task_turn_in_progress", needs_input := false,
          input_prompt := .null, responses := .list [], delta := .null, raw := .null }
      (st, [], .returned r)
    | _ =>
      let st₀ := {st with pending := .waiting}
      match ensureEventStream st₀ with
      | (st₁, .error e) => resumeExcept st₁ [] e
      | (st₁, .ok _) =>
        let acts := [Action.post "/v1/task/resume"]
        match postResult "/v1/task/resume" resumeResp with
        | .error e => resumeExcept st₁ acts e
        | .ok data =>
          match pyGet data "status" with
          | .error e => resumeExcept st₁ acts e
          | .ok status? =>
            if !(resumeStatusOk status?) then
              let error := data.getD "error" (.str "task_resume_failed")
              let message := data.getD "message" (.str "Unknown task resume error")
              let reason := error.pyStr ++ ": " ++ message.pyStr
              let (st₂, a₂) := failPendingTurnGracefully reason .null st₁
              let r : RunResult :=
                { success := false, output := .str "", reason := reason,
                  error_code := error, needs_input := false, input_prompt := .null,
                  responses := .list [], delta := .null, raw := data }
              ({st₂ with pending := .noFuture}, acts ++ a₂, .returned r)
            else (st₁, acts, .awaitingTurn)

/-- Awaiting the live consumer task from `stop_task`: the loop (already
past its opening) notices the stop flag at the next line, or its
iterator ends/fails, and its finally block runs before the await
returns. -/
def awaitStreamRun (env : Env) (st : AgentState) (lines : List String)
    (endk : StreamEnd) : AgentState × List Action :=
  let (st₁, a₁, err) := streamBody env st none none lines endk
  let (st₂, a₂) := streamLoopFinalize err st₁
  (st₂, a₁ ++ a₂)

/-- `stop_task` (agent.py lines 1047-1077): set the stop flag;
best-effort `POST /v1/task/close` when a session and task are active
(its outcome — `_closeResp` — is discarded and any failure is only
logged); await a live consumer task; clear the task handle; fail any
still-pending turn gracefully; clear the pending slot. -/
def stopTask (env : Env) (_closeResp : HttpOutcome) (lines : List String)
    (endk : StreamEnd) (st : AgentState) : AgentState × List Action :=
  let stA := {st with stop_stream := true}
  let a₁ :=
    if !stA.session_id.isNull && !stA.current_task_id.isNull then
      [Action.post "/v1/task/close"]
    else []
  let run := if stA.stream_live then awaitStreamRun env stA lines endk else (stA, [])
  let stD := {run.1 with stream_live := false, current_task_id := .null}
  let fin := failPendingTurnGracefully "Task stopped before turn completion" .null stD
  ({fin.1 with pending := .noFuture}, a₁ ++ run.2 ++ fin.2)

/-- The `except` result of a tool method: `RunResult(success=False,
reason=str(e), error_code=e.code | "sdk_runtime_error")`. -/
def toolExcept (e : PyExc) : RunResult :=
  { success := false, output := .str "", reason := e.pyStr,
    error_code := e.errCode, needs_input := false, input_prompt := .null,
    responses := .list [], delta := .null, raw := .null }

/-- The shared body of the tool methods `start_app`/`delay`/`home`/
`back`/`input_text`/`press_key`/`swipe`/`tap` (agent.py lines
1238-1879); the source repeats this pattern verbatim per method with its
own path, default error code/message and success output text: ensure a
session, POST, and on a non-success status build a failure whose
`error_code` is `data.get("error", failCode)` and whose reason is
`f"(error): (message)"`; on success a fixed-output success result; any
exception is wrapped by the except clause. -/
def toolCall (sessResp resp : HttpOutcome) (st : AgentState)
    (path failCode failMsg okOutput : String) :
    AgentState × List Action × RunResult :=
  let (st₁, a₁, r₁) := ensureSession sessResp st
  match r₁ with
  | .error e => (st₁, a₁, toolExcept e)
  | .ok _ =>
    let acts := a₁ ++ [Action.post path]
    match postResult path resp with
    | .error e => (st₁, acts, toolExcept e)
    | .ok data =>
      match pyGet data "status" with
      | .error e => (st₁, acts, toolExcept e)
      | .ok status? =>
        if !(isStrVal status? "success") then
          let error := data.getD "error" (.str failCode)
          let message := data.getD "message" (.str failMsg)
          let r : RunResult :=
            { success := false, output := .str "",
              reason := error.pyStr ++ ": " ++ message.pyStr,
              error_code := error, needs_input := false, input_prompt := .null,
              responses := .list [], delta := .null, raw := data }
          (st₁, acts, r)
        else
          let r : RunResult :=
            { success := true, output := .str okOutput, reason := "",
              error_code := .null, needs_input := false, input_prompt := .null,
              responses := .list [], delta := .null, raw := data }
          (st₁, acts, r)

/-- `start_app(package, activity)` (agent.py lines 1238-1321): rejects a
falsy package, otherwise the shared tool body. -/
def startApp (sessResp resp : HttpOutcome) (st : AgentState) (package : JVal) :
    AgentState × List Action × RunResult :=
  if !package.truthy then
    (st, [], invalidArgResult "package is required for start_app()")
  else
    toolCall sessResp resp st "/v1/tools/start_app" "start_app_failed"
      "Unknown start_app error" "start_app executed"

/-- `delay(ms)` (agent.py lines 1323-1399): rejects `ms <= 0`. -/
def delayCall (sessResp resp : HttpOutcome) (st : AgentState) (ms : Int) :
    AgentState × List Action × RunResult :=
  if ms ≤ 0 then
    (st, [], invalidArgResult "delay(ms) requires a positive duration in milliseconds")
  else
    toolCall sessResp resp st "/v1/tools/delay" "delay_failed"
      "Unknown delay error" "delay executed"

/-- `home()` (agent.py lines 1401-1460). -/
def homeCall (sessResp resp : HttpOutcome) (st : AgentState) :
    AgentState × List Action × RunResult :=
  toolCall sessResp resp st "/v1/tools/home" "home_failed"
    "Unknown home command error" "home executed"

/-- `back()` (agent.py lines 1462-1521). -/
def backCall (sessResp resp : HttpOutcome) (st : AgentState) :
    AgentState × List Action × RunResult :=
  toolCall sessResp resp st "/v1/tools/back" "back_failed"
    "Unknown back command error" "back executed"

/-- `input_text(text)` (agent.py lines 1523-1603): rejects a non-string
or empty text (`not isinstance(text, str) or len(text) == 0`). -/
def inputTextCall (sessResp resp : HttpOutcome) (st : AgentState) (text : PyArg) :
    AgentState × List Action × RunResult :=
  let valid := match text with | .str s => s.length ≠ 0 | _ => false
  if !valid then
    (st, [], invalidArgResult "input_text() requires a non-empty string")
  else
    toolCall sessResp resp st "/v1/tools/input_text" "input_text_failed"
      "Unknown input_text error" "input_text executed"

/-- Whether a call argument is an int (`isinstance(v, int)`). -/
def PyArg.isInt : PyArg → Bool
  | .int _ => true
  | _ => false

/-- `press_key(keycode)` (agent.py lines 1605-1683): rejects a
non-integer keycode. -/
def pressKeyCall (sessResp resp : HttpOutcome) (st : AgentState) (keycode : PyArg) :
    AgentState × List Action × RunResult :=
  if !keycode.isInt then
    (st, [], invalidArgResult "press_key() requires an integer keycode")
  else
    toolCall sessResp resp st "/v1/tools/press_key" "press_key_failed"
      "Unknown press_key error" "press_key executed"

/-- The named-argument loop of `swipe`'s validation: the first
non-integer argument, in declaration order. -/
def firstNonInt : List (String × PyArg) → Option String
  | [] => none
  | (nm, a) :: rest => if a.isInt then firstNonInt rest else some nm

/-- `swipe(start_x, start_y, end_x, end_y, duration_ms)` (agent.py lines
1685-1800): every argument must be an int and the duration positive. -/
def swipeCall (sessResp resp : HttpOutcome) (st : AgentState)
    (start_x start_y end_x end_y duration_ms : PyArg) :
    AgentState × List Action × RunResult :=
  match firstNonInt [("start_x", start_x), ("start_y", start_y), ("end_x", end_x),
      ("end_y", end_y), ("duration_ms", duration_ms)] with
  | some nm => (st, [], invalidArgResult (nm ++ " must be an integer"))
  | none =>
    let dur : Int := match duration_ms with | .int d => d | _ => 0
    if dur ≤ 0 then
      (st, [], invalidArgResult "duration_ms must be greater than zero")
    else
      toolCall sessResp resp st "/v1/tools/swipe" "swipe_failed"
        "Unknown swipe error" "swipe executed"

/-- `tap(x, y)` (agent.py lines 1802-1879): both coordinates must be
ints. -/
def tapCall (sessResp resp : HttpOutcome) (st : AgentState) (x y : PyArg) :
    AgentState × List Action × RunResult :=
  if !x.isInt || !y.isInt then
    (st, [], invalidArgResult "tap(x, y) requires integer coordinates")
  else
    toolCall sessResp resp st "/v1/tools/tap" "tap_failed"
      "Unknown tap error" "tap executed"

/-! ## Fixtures and helper lemmas -/

/-- A decoder stub that rejects every data string (exercises the
malformed-JSON path on concrete inputs). -/
def parseNone : String → Option JVal := fun _ => none

/-- A minimal environment for concrete runs. -/
def env0 : Env :=
  { jsonParse := parseNone, consoleInput := "", resumeResp := .timeout }

/-- A client mid-task in the default configuration: session and task
active, consumer live, a caller blocked on an unresolved turn. -/
def stActive : AgentState :=
  { freshState with
    session_id := .str "s1"
    current_task_id := .str "t1"
    stream_live := true
    pending := .waiting }

/-- `stActive` with a completion callback registered. -/
def stActiveCb : AgentState := { stActive with on_completed_set := true }

/-! ## C7: request gateway failure classification -/

/-- The machine code carried by a gateway failure. -/
def gwCode : Except PyExc JVal → Option JVal
  | .error (.sdkError _ c) => some c
  | _ => none

/-! ## C3 and C9: handling of task_completed frames -/

/-- The effective output of a `result` block field when it is a string
or absent (defaulting to `""`); `none` when it holds a non-string
value. -/
def strOutput (kvs : List (String × JVal)) (k : String) : Option String :=
  match kvs.lookup k with
  | Option.none => some ""
  | some (.str s) => some s
  | some _ => none

/-- The `RunResult` the task_completed branch builds from a result block
whose output is the string `out`. -/
def completedResult (rkvs : List (String × JVal)) (out : String) (R D E : JVal) : RunResult :=
  { success := isStrVal (List.lookup "status" rkvs) "success"
    output := .str out
    reason := if isStrVal (List.lookup "status" rkvs) "success" then "" else "task_failed"
    error_code := if isStrVal (List.lookup "status" rkvs) "success" then JVal.null
      else pyOr (List.lookup "error" rkvs) (.str "task_failed")
    needs_input := false
    input_prompt := .null
    responses := R
    delta := D
    raw := E.dictSet "output" (.str out) }

/-- A completed frame whose `result.output` is the number 5: `len(5)`
raises TypeError inside the handler (agent.py line 814). -/
def cexPayloadC3 : JVal :=
  .dict [("result", .dict [("status", .str "success"), ("output", .int 5)])]

/-- A completed frame whose `result.output` is a boolean. -/
def cexPayloadC9 : JVal :=
  .dict [("result", .dict [("status", .str "success"), ("output", .bool true)])]

/-- A decoder stub that parses every data string as `cexPayloadC3`. -/
def envC3 : Env :=
  { jsonParse := fun _ => some cexPayloadC3, consoleInput := "", resumeResp := .timeout }

/-- A successful `/v1/task/create` response. -/
def createOkC2 : HttpOutcome :=
  .response 200 (some (.dict [("status", .str "success"), ("task_id", .str "t2")]))

/-- `str(e)` of the turn-in-progress error raised by
`_wait_for_turn_completion`. -/
def tipReason : String :=
  "Another task turn is already waiting for completion. Wait for it to finish before starting/resuming again.\nError code: task_turn_in_progress"

/-- The synthetic error event delivered when the second `run_task`
fails the outstanding turn. -/
def evC2 : JVal := errEvent tipReason (.str tipReason)

/-- The failure result the outstanding turn is resolved with. -/
def frC2 : RunResult :=
  { success := false, output := .str "", reason := tipReason,
    error_code := .str "event_stream_error", needs_input := false, input_prompt := .null,
    responses := .list [], delta := .null, raw := evC2 }

/-- The result returned to the second caller. -/
def rrC2 : RunResult :=
  { success := false, output := .str "", reason := tipReason,
    error_code := .str "task_turn_in_progress", needs_input := false, input_prompt := .null,
    responses := .list [], delta := .null, raw := .null }

/-! ## C4: the RunResult shape invariant -/

/-- A backend outcome whose failure reports carry a usable `error`
field: whenever the parsed body reports a non-success status, its
`error` field is either absent or truthy. -/
def errFieldUsable (o : HttpOutcome) : Prop :=
  ∀ status kvs, o = .response status (some (.dict kvs)) →
    isStrVal (List.lookup "status" kvs) "success" = false →
    (match List.lookup "error" kvs with
      | Option.none => True
      | some v => v.truthy = true)

/-- A tool response whose parsed body reports a failure with a
present-but-empty `error` field. -/
def respC4 : HttpOutcome :=
  .response 200 (some (.dict [("status", .str "failed"), ("error", .str "")]))

/-- The failure result `tap` builds from `respC4`: `success=False` with
the empty `error_code` taken verbatim from the body. -/
def rrC4 : RunResult :=
  { success := false, output := .str "",
    reason := ": Unknown tap error",
    error_code := .str "", needs_input := false, input_prompt := .null,
    responses := .list [], delta := .null,
    raw := .dict [("status", .str "failed"), ("error", .str "")] }

/-- A tool response whose failure body carries a usable (non-empty)
`error` field. -/
def respOkC4 : HttpOutcome :=
  .response 200 (some (.dict [("status", .str "failed"), ("error", .str "tap_refused")]))

theorem pyStrip_all_space (s : String) (hs : ∀ c ∈ s.toList, isPySpace c = true) :
    pyStrip s = "" := by
  have h1 : List.dropWhile isPySpace s.data = [] :=
    List.dropWhile_eq_nil_iff.mpr fun c hc => hs c hc
  unfold pyStrip
  rw [show s.toList = s.data from rfl, h1]
  rfl

theorem pyOr_some_truthy (v b : JVal) (h : v.truthy = true) : pyOr (some v) b = v := by
  simp [pyOr, h]

theorem pyOr_truthy (a : Option JVal) (b : JVal) (hb : b.truthy = true) :
    (pyOr a b).truthy = true := by
  cases a with
  | none => simpa [pyOr]
  | some v =>
    by_cases hv : v.truthy = true <;> simp [pyOr, hv, hb]

theorem mkSDKError_code_truthy (m : JVal) (c : Option JVal) :
    ((mkSDKError m c).errCode).truthy = true := by
  simp [mkSDKError, PyExc.errCode]
  exact pyOr_truthy c (.str "sdk_error") rfl

/-- C7: `_post`/`_get` classify every failure of one request into
exactly one structured error: a connection timeout yields
`connection_timeout`; any other transport failure `connection_failed`;
a non-JSON body `invalid_response`; a non-success HTTP status carries
the server's own `error`/`message` fields, falling back to
`"http_error"` / `"HTTP <status>"` when absent; a 200 response with a
valid JSON body is returned parsed; and a failing outcome still causes
exactly one request at a call site (no retries). -/
theorem claim_C7 :
    (∀ path, gwCode (postResult path .timeout) = some (.str "connection_timeout") ∧
      gwCode (getResult path .timeout) = some (.str "connection_timeout")) ∧
    (∀ path, gwCode (postResult path .transportError) = some (.str "connection_failed") ∧
      gwCode (getResult path .transportError) = some (.str "connection_failed")) ∧
    (∀ path status, gwCode (postResult path (.response status none)) = some (.str "invalid_response") ∧
      gwCode (getResult path (.response status none)) = some (.str "invalid_response")) ∧
    (∀ path status kvs e m, status ≠ 200 →
      kvs.lookup "error" = some e → e.truthy = true →
      kvs.lookup "message" = some m → m.truthy = true →
      postResult path (.response status (some (.dict kvs))) = .error (.sdkError m e) ∧
      getResult path (.response status (some (.dict kvs))) = .error (.sdkError m e)) ∧
    (∀ path status kvs, status ≠ 200 →
      kvs.lookup "error" = none → kvs.lookup "message" = none →
      postResult path (.response status (some (.dict kvs))) =
        .error (.sdkError (.str ("HTTP " ++ toString status)) (.str "http_error")) ∧
      getResult path (.response status (some (.dict kvs))) =
        .error (.sdkError (.str ("HTTP " ++ toString status)) (.str "http_error"))) ∧
    (∀ path data, postResult path (.response 200 (some data)) = .ok data ∧
      getResult path (.response 200 (some data)) = .ok data) ∧
    (∀ o, (ensureSession o freshState).2.1 = [Action.post "/v1/session/create"]) := by
  refine ⟨fun path => ⟨rfl, rfl⟩, fun path => ⟨rfl, rfl⟩, fun path status => ⟨rfl, rfl⟩,
    ?_, ?_, ?_, ?_⟩
  · intro path status kvs e m hs he het hm hmt
    constructor <;>
      simp [postResult, getResult, hs, pyGet, he, hm, mkSDKError,
        pyOr_some_truthy _ _ het, pyOr_some_truthy _ _ hmt]
  · intro path status kvs hs he hm
    constructor <;> simp [postResult, getResult, hs, pyGet, he, hm, mkSDKError, pyOr,
      JVal.truthy]
  · intro path data
    constructor <;> simp [postResult, getResult]
  · intro o
    unfold ensureSession
    split
    · next h => simp [freshState, JVal.isNull] at h
    · split
      · rfl
      · split
        · rfl
        · split
          · rfl
          · split <;> rfl

/-- Witness for C7 at concrete inputs. -/
theorem claim_C7_witness :
    postResult "/p" (.response 500 (some (.dict [("error", .str "boom"), ("message", .str "msg")]))) =
      .error (.sdkError (.str "msg") (.str "boom")) ∧
    getResult "/p" (.response 404 (some (.dict []))) =
      .error (.sdkError (.str ("HTTP " ++ toString 404)) (.str "http_error")) := by
  exact ⟨(claim_C7.2.2.2.1 "/p" 500 [("error", .str "boom"), ("message", .str "msg")]
      (.str "boom") (.str "msg") (by decide) rfl rfl rfl rfl).1,
    (claim_C7.2.2.2.2.1 "/p" 404 [] (by decide) rfl rfl).2⟩

/-! ## C6 and C10: the invalid-argument guards -/

/-- C6: for every empty or all-whitespace query, `run_task` (and
likewise `resume_task`) returns synchronously a failure with
`error_code "invalid_argument"` and performs zero network calls — the
call leaves the state untouched and emits no action at all. -/
theorem claim_C6 (sessResp createResp resumeResp : HttpOutcome) (st : AgentState)
    (s : String) (hs : ∀ c ∈ s.toList, isPySpace c = true) :
    runTask sessResp createResp st (.str s) =
      (st, [], .returned (invalidArgResult "ERROR: run_task(query) requires a non-empty string")) ∧
    resumeTask resumeResp st (.str s) =
      (st, [], .returned (invalidArgResult "ERROR: resume_task(new_query) requires a non-empty string")) ∧
    (invalidArgResult "ERROR: run_task(query) requires a non-empty string").error_code =
      .str "invalid_argument" ∧
    (invalidArgResult "ERROR: resume_task(new_query) requires a non-empty string").error_code =
      .str "invalid_argument" := by
  have h : argInvalid (.str s) = true := by
    simp [argInvalid, pyStrip_all_space s hs]
  refine ⟨?_, ?_, rfl, rfl⟩ <;> simp [runTask, resumeTask, h]

/-- Witness for C6 on the all-whitespace query `"   "`. -/
theorem claim_C6_witness :
    (∀ c ∈ ("   ").toList, isPySpace c = true) ∧
    runTask .timeout .timeout freshState (.str "   ") =
      (freshState, [], .returned (invalidArgResult "ERROR: run_task(query) requires a non-empty string")) := by
  have h : ∀ c ∈ ("   ").toList, isPySpace c = true := by decide
  exact ⟨h, (claim_C6 .timeout .timeout .timeout freshState "   " h).1⟩

/-- C10: a `None` or non-string (e.g. integer) argument makes `run_task`
and `resume_task` return the `invalid_argument` failure with no network
call, rather than raising. -/
theorem claim_C10 (sessResp createResp resumeResp : HttpOutcome) (st : AgentState) (n : Int) :
    runTask sessResp createResp st .none =
      (st, [], .returned (invalidArgResult "ERROR: run_task(query) requires a non-empty string")) ∧
    runTask sessResp createResp st (.int n) =
      (st, [], .returned (invalidArgResult "ERROR: run_task(query) requires a non-empty string")) ∧
    resumeTask resumeResp st .none =
      (st, [], .returned (invalidArgResult "ERROR: resume_task(new_query) requires a non-empty string")) ∧
    resumeTask resumeResp st (.int n) =
      (st, [], .returned (invalidArgResult "ERROR: resume_task(new_query) requires a non-empty string")) :=
  ⟨rfl, rfl, rfl, rfl⟩

/-! ## C5 and C1: the failure-closing contract -/

theorem string_append_ne_empty (s t : String) (h : s ≠ "") : s ++ t ≠ "" := by
  cases s with
  | mk ls =>
    cases t with
    | mk lt =>
      intro he
      have hd : ls ++ lt = ([] : List Char) := congrArg String.data he
      rcases List.append_eq_nil.mp hd with ⟨h1, _⟩
      exact h (by rw [h1])

theorem failPending_waiting (reason : String) (excRepr : JVal) (st : AgentState)
    (h : st.pending = .waiting) :
    ∃ r, failPendingTurnGracefully reason excRepr st =
        ({st with pending := .done r},
          [.cbCompleted (errEvent reason excRepr), .resolveTurn r]) ∧
      r.success = false ∧ r.reason = reason ∧
      r.error_code = .str "event_stream_error" ∧ r.raw = errEvent reason excRepr := by
  unfold failPendingTurnGracefully
  rw [h]
  exact ⟨_, rfl, rfl, rfl, rfl, rfl⟩

/-- With the stop flag set, the loop body touches nothing: it breaks at
the first line (or the iterator ends/fails) with no actions. -/
theorem streamBody_stopped (env : Env) (st : AgentState) (nm dat : Option String)
    (lines : List String) (endk : StreamEnd) (h : st.stop_stream = true) :
    ∃ err, streamBody env st nm dat lines endk = (st, [], err) := by
  cases lines with
  | nil => cases endk <;> exact ⟨_, rfl⟩
  | cons a rest => exact ⟨none, by simp [streamBody, h]⟩

theorem awaitStreamRun_stopped (env : Env) (st : AgentState) (lines : List String)
    (endk : StreamEnd) (h : st.stop_stream = true) :
    ∃ err, awaitStreamRun env st lines endk = streamLoopFinalize err st := by
  obtain ⟨err, he⟩ := streamBody_stopped env st none none lines endk h
  refine ⟨err, ?_⟩
  simp [awaitStreamRun, he]

theorem failPending_not_waiting (reason : String) (excRepr : JVal) (s : AgentState)
    (h : s.pending ≠ .waiting) :
    failPendingTurnGracefully reason excRepr s = (s, []) := by
  unfold failPendingTurnGracefully
  cases hp : s.pending with
  | waiting => exact absurd hp h
  | noFuture => rfl
  | done r => rfl

/-- C5: `stop_task` is callable from every state and total.  On a fresh
client it performs zero network calls (no actions at all) and only sets
the stop flag.  From any state it clears the task handle and the
pending slot, resolving a still-waiting turn with a failure result; and
the outcome never depends on the best-effort close call's result (a
close failure is logged, never raised). -/
theorem claim_C5 :
    (∀ env closeResp lines endk,
      stopTask env closeResp lines endk freshState =
        ({freshState with stop_stream := true}, [])) ∧
    (∀ env closeResp lines endk st,
      (stopTask env closeResp lines endk st).1.current_task_id = .null ∧
      (stopTask env closeResp lines endk st).1.pending = .noFuture ∧
      (st.pending = .waiting →
        ∃ r, Action.resolveTurn r ∈ (stopTask env closeResp lines endk st).2 ∧
          r.success = false ∧ r.error_code = .str "event_stream_error")) ∧
    (∀ env o o₂ lines endk st,
      stopTask env o lines endk st = stopTask env o₂ lines endk st) := by
  refine ⟨fun env closeResp lines endk => rfl, ?_, fun env o o₂ lines endk st => rfl⟩
  intro env closeResp lines endk st
  by_cases hlive : st.stream_live = true
  · obtain ⟨err, hrun⟩ :=
      awaitStreamRun_stopped env {st with stop_stream := true} lines endk rfl
    simp only [streamLoopFinalize] at hrun
    by_cases hp : st.pending = .waiting
    · cases err with
      | some e =>
        obtain ⟨r, hfail, hs, hrsn, hec, _⟩ :=
          failPending_waiting ("Event stream error: " ++ e.pyStr) (.str e.pyRepr)
            {st with stop_stream := true} hp
        have hD := failPending_not_waiting "Task stopped before turn completion" .null
          {st with
            stop_stream := true
            pending := Pending.done r
            stream_live := false
            current_task_id := .null} (by simp)
        simp only [hlive] at hrun hfail hD
        refine ⟨?_, ?_, fun _ => ⟨r, ?_, hs, hec⟩⟩ <;>
          simp [stopTask, hlive, hrun, hfail, hD]
      | none =>
        obtain ⟨r, hfail, hs, hrsn, hec, _⟩ :=
          failPending_waiting
            "[BlueStacks Agent]: ERROR: Lost connection to BlueStacks AppPlayer. Please check if BlueStacks AppPlayer is running."
            .null {st with stop_stream := true} hp
        have hD := failPending_not_waiting "Task stopped before turn completion" .null
          {st with
            stop_stream := true
            pending := Pending.done r
            stream_live := false
            current_task_id := .null} (by simp)
        simp only [hlive] at hrun hfail hD
        refine ⟨?_, ?_, fun _ => ⟨r, ?_, hs, hec⟩⟩ <;>
          simp [stopTask, hlive, hrun, hfail, hD]
    · have hD := failPending_not_waiting "Task stopped before turn completion" .null
        {st with
          stop_stream := true
          stream_live := false
          current_task_id := .null} hp
      cases err with
      | some e =>
        rw [failPending_not_waiting _ _ {st with stop_stream := true} hp] at hrun
        simp only [hlive] at hrun hD
        refine ⟨?_, ?_, fun hw => absurd hw hp⟩ <;>
          simp [stopTask, hlive, hrun, hD]
      | none =>
        rw [failPending_not_waiting _ _ {st with stop_stream := true} hp] at hrun
        simp only [hlive] at hrun hD
        refine ⟨?_, ?_, fun hw => absurd hw hp⟩ <;>
          simp [stopTask, hlive, hrun, hD]
  · have hlf : st.stream_live = false := by simpa using hlive
    by_cases hp : st.pending = .waiting
    · obtain ⟨r, hfail, hs, hrsn, hec, _⟩ :=
        failPending_waiting "Task stopped before turn completion" .null
          {st with
            stop_stream := true
            stream_live := false
            current_task_id := .null} hp
      refine ⟨?_, ?_, fun _ => ⟨r, ?_, hs, hec⟩⟩ <;> simp [stopTask, hlf, hfail]
    · have hD := failPending_not_waiting "Task stopped before turn completion" .null
        {st with
          stop_stream := true
          stream_live := false
          current_task_id := .null} hp
      refine ⟨?_, ?_, fun hw => absurd hw hp⟩ <;> simp [stopTask, hlf, hD]

/-- Witness for C5: stopping mid-turn resolves the blocked caller. -/
theorem claim_C5_witness :
    stActive.pending = .waiting ∧
    (stopTask env0 .timeout [] .eof stActive).1.current_task_id = .null ∧
    (stopTask env0 .timeout [] .eof stActive).1.pending = .noFuture ∧
    ∃ r, Action.resolveTurn r ∈ (stopTask env0 .timeout [] .eof stActive).2 ∧
      r.success = false ∧ r.error_code = .str "event_stream_error" := by
  obtain ⟨h1, h2, h3⟩ := (claim_C5.2.1 env0 .timeout [] .eof stActive)
  exact ⟨rfl, h1, h2, h3 rfl⟩

/-- C1: whenever the event-stream loop exits — its body having consumed
the stream until it ended, failed, or was stopped — while the pending
turn is still unresolved, the finally block resolves that turn with a
failure `RunResult` (success false, `event_stream_error`, a non-empty
reason describing the cause) and delivers a synthetic `task_error`
event to the completion callback, releasing the blocked caller. -/
theorem claim_C1 (env : Env) (st st₁ : AgentState) (a₁ : List Action)
    (err : Option PyExc) (lines : List String) (endk : StreamEnd)
    (hsess : st.session_id.isNull = false)
    (htask : st.current_task_id.isNull = false)
    (hbody : streamBody env st none none lines endk = (st₁, a₁, err))
    (hpend : st₁.pending = .waiting) :
    ∃ r ev,
      eventStreamLoop env st lines endk =
        ({st₁ with pending := .done r},
          [Action.get "/v1/task/stream"] ++ a₁ ++ [Action.cbCompleted ev, .resolveTurn r]) ∧
      ev.lookup "type" = some (.str "task_error") ∧
      r.success = false ∧ r.error_code = .str "event_stream_error" ∧
      r.reason ≠ "" ∧
      ((∃ e, err = some e ∧ r.reason = "Event stream error: " ++ e.pyStr) ∨
        (err = none ∧
          r.reason = "[BlueStacks Agent]: ERROR: Lost connection to BlueStacks AppPlayer. Please check if BlueStacks AppPlayer is running.")) ∧
      (waitFinish {st₁ with pending := .done r}).2 = some r := by
  cases err with
  | some e =>
    obtain ⟨r, hfail, hs, hrsn, hec, _⟩ :=
      failPending_waiting ("Event stream error: " ++ e.pyStr) (.str e.pyRepr) st₁ hpend
    refine ⟨r, errEvent ("Event stream error: " ++ e.pyStr) (.str e.pyRepr),
      ?_, rfl, hs, hec, ?_, Or.inl ⟨e, rfl, hrsn⟩, rfl⟩
    · unfold eventStreamLoop
      simp [hsess, htask, hbody, streamLoopFinalize, hfail]
    · rw [hrsn]
      exact string_append_ne_empty "Event stream error: " e.pyStr (by decide)
  | none =>
    obtain ⟨r, hfail, hs, hrsn, hec, _⟩ :=
      failPending_waiting
        "[BlueStacks Agent]: ERROR: Lost connection to BlueStacks AppPlayer. Please check if BlueStacks AppPlayer is running."
        .null st₁ hpend
    refine ⟨r, errEvent
        "[BlueStacks Agent]: ERROR: Lost connection to BlueStacks AppPlayer. Please check if BlueStacks AppPlayer is running."
        .null, ?_, rfl, hs, hec, ?_, Or.inr ⟨rfl, hrsn⟩, rfl⟩
    · unfold eventStreamLoop
      simp [hsess, htask, hbody, streamLoopFinalize, hfail]
    · rw [hrsn]
      decide

/-- Witness for C1: a stream that ends immediately while a turn is
pending. -/
theorem claim_C1_witness :
    ∃ r ev,
      eventStreamLoop env0 stActive [] .eof =
        ({stActive with pending := .done r},
          [Action.get "/v1/task/stream"] ++ [] ++ [Action.cbCompleted ev, .resolveTurn r]) ∧
      ev.lookup "type" = some (.str "task_error") ∧
      r.success = false ∧ r.error_code = .str "event_stream_error" ∧
      r.reason ≠ "" ∧
      ((∃ e, (none : Option PyExc) = some e ∧ r.reason = "Event stream error: " ++ e.pyStr) ∨
        ((none : Option PyExc) = none ∧
          r.reason = "[BlueStacks Agent]: ERROR: Lost connection to BlueStacks AppPlayer. Please check if BlueStacks AppPlayer is running.")) ∧
      (waitFinish {stActive with pending := .done r}).2 = some r :=
  claim_C1 env0 stActive stActive [] none [] .eof rfl rfl rfl rfl

theorem dict_pyor_self (kvs : List (String × JVal)) :
    (if (JVal.dict kvs).truthy then JVal.dict kvs else .dict []) = .dict kvs := by
  cases kvs <;> simp [JVal.truthy]

theorem strOutput_getD (kvs : List (String × JVal)) (k : String) (out : String)
    (h : strOutput kvs k = some out) :
    (kvs.lookup k).getD (.str "") = .str out := by
  unfold strOutput at h
  cases hlk : kvs.lookup k with
  | none => rw [hlk] at h; simp_all
  | some v => rw [hlk] at h; cases v <;> simp_all

theorem completedConsole_benign (pkvs rkvs : List (String × JVal)) (out : String)
    (hres : List.lookup "result" pkvs = some (JVal.dict rkvs))
    (hout : strOutput rkvs "output" = some out)
    (hmsg : (strOutput rkvs "message").isSome = true) :
    completedConsoleBlock (.dict pkvs) = none := by
  unfold completedConsoleBlock
  simp only [pyIndex, hres, pyGet]
  by_cases hs : isStrVal (List.lookup "status" rkvs) "success"
  · simp only [hs, if_true, JVal.getD, JVal.lookup, strOutput_getD rkvs "output" out hout]
    rfl
  · obtain ⟨m, hm⟩ := Option.isSome_iff_exists.mp hmsg
    simp only [hs, if_false, JVal.getD, JVal.lookup, strOutput_getD rkvs "message" m hm]
    rfl

theorem completedBranch_benign_waiting (st : AgentState) (rkvs : List (String × JVal))
    (R D E : JVal) (acts : List Action) (out : String)
    (hout : strOutput rkvs "output" = some out)
    (hpend : st.pending = .waiting) :
    completedBranch st (.dict rkvs) R D E acts =
      ({st with pending := .done (completedResult rkvs out R D E)},
        acts ++ [Action.cbCompleted (E.dictSet "output" (.str out)),
          Action.resolveTurn (completedResult rkvs out R D E)], none) := by
  unfold completedBranch completedResult
  simp only [pyGetD, pyGet, Except.map, JVal.lookup, strOutput_getD rkvs "output" out hout,
    pyLen, hpend]
  simp only [List.append_assoc, List.singleton_append]

theorem completedBranch_benign_notwaiting (st : AgentState) (rkvs : List (String × JVal))
    (R D E : JVal) (acts : List Action) (out : String)
    (hout : strOutput rkvs "output" = some out)
    (hpend : st.pending ≠ .waiting) :
    completedBranch st (.dict rkvs) R D E acts =
      (st, acts ++ [Action.cbCompleted (E.dictSet "output" (.str out))], none) := by
  unfold completedBranch
  simp only [pyGetD, pyGet, Except.map, JVal.lookup, strOutput_getD rkvs "output" out hout,
    pyLen]

/-- Counterexample to C3 as stated: a `task_completed` frame with
`status="success"` but `output=5` is handled while a turn is pending,
yet the handler raises TypeError at the `len(output)` logging call
before resolving anything; the stream loop then terminates and the
turn is resolved by the failure path with `success=false` and
`error_code="event_stream_error"` — not with a result built from the
frame (which announced success). -/
theorem claim_C3_cex :
    stActiveCb.pending = Pending.waiting ∧
    (∃ ev, handlePayload env0 stActiveCb (some "task_completed") cexPayloadC3 =
      (stActiveCb, [Action.cbEvent ev], some (PyExc.typeError "object has no len()"))) ∧
    (∃ r, (eventStreamLoop envC3 stActiveCb
        ["event: task_completed", "data: x", ""] .eof).1.pending = Pending.done r ∧
      r.success = false ∧ r.error_code = .str "event_stream_error") := by
  exact ⟨rfl, ⟨_, rfl⟩, ⟨_, rfl, rfl, rfl⟩⟩

/-- C3 (amended): for every `task_completed` frame whose nested result
object carries a string (or absent) `output` and a string (or absent)
`message`, handled while a PendingTurn exists, the turn is resolved
exactly once with the `RunResult` built from that result object,
`success = (status == "success")`; in particular the two spec instances
hold: `status="success", output="done"` yields
`RunResult(success=true, output="done", error_code=None)`, and
`status="error", error="E1"` yields
`RunResult(success=false, error_code="E1")`. -/
theorem claim_C3 :
    (∀ env st pkvs rkvs out,
      st.pending = .waiting →
      List.lookup "result" pkvs = some (JVal.dict rkvs) →
      strOutput rkvs "output" = some out →
      (strOutput rkvs "message").isSome = true →
      ∃ ev ev' r,
        handlePayload env st (some "task_completed") (.dict pkvs) =
          ({st with pending := .done r},
            [Action.cbEvent ev, Action.cbCompleted ev', Action.resolveTurn r], none) ∧
        r.success = isStrVal (List.lookup "status" rkvs) "success" ∧
        r.output = .str out ∧
        r.error_code = (if isStrVal (List.lookup "status" rkvs) "success" then JVal.null
          else pyOr (List.lookup "error" rkvs) (.str "task_failed"))) ∧
    (∃ r, (handlePayload env0 stActive (some "task_completed")
        (.dict [("result", .dict [("status", .str "success"), ("output", .str "done")])])).1.pending
        = Pending.done r ∧
      r.success = true ∧ r.output = .str "done" ∧ r.error_code = .null ∧ r.reason = "") ∧
    (∃ r, (handlePayload env0 stActive (some "task_completed")
        (.dict [("result", .dict [("status", .str "error"), ("error", .str "E1")])])).1.pending
        = Pending.done r ∧
      r.success = false ∧ r.error_code = .str "E1" ∧ r.output = .str "") := by
  refine ⟨?_, ⟨_, rfl, rfl, rfl, rfl, rfl⟩, ⟨_, rfl, rfl, rfl, rfl⟩⟩
  intro env st pkvs rkvs out hpend hres hout hmsg
  have hcons := completedConsole_benign pkvs rkvs out hres hout hmsg
  have hrb : resultField pkvs = .dict rkvs := by
    unfold resultField
    rw [hres]
    exact dict_pyor_self rkvs
  have hb1 : ((some "task_completed" : Option String) == some "task_progress") = false := rfl
  have hb2 : ((some "task_completed" : Option String) == some "task_await_input") = false := rfl
  have hb3 : ((some "task_completed" : Option String) == some "task_completed") = true := rfl
  refine ⟨builtEvent (some "task_completed") pkvs,
    (builtEvent (some "task_completed") pkvs).dictSet "output" (.str out),
    completedResult rkvs out (respField pkvs) ((List.lookup "delta" pkvs).getD .null)
      (builtEvent (some "task_completed") pkvs), ?_, rfl, rfl, rfl⟩
  simp only [handlePayload, handleDict, hcons, ite_self, hb1, hb2, hb3,
    Bool.false_eq_true, if_false, if_true, hrb]
  rw [completedBranch_benign_waiting st rkvs (respField pkvs)
    ((List.lookup "delta" pkvs).getD .null) (builtEvent (some "task_completed") pkvs)
    [Action.cbEvent (builtEvent (some "task_completed") pkvs)] out hout hpend]
  rfl

/-- Witness for the amended C3 at a concrete benign frame. -/
theorem claim_C3_witness :
    ∃ ev ev' r,
      handlePayload env0 stActive (some "task_completed")
          (.dict [("result", .dict [("status", .str "error"), ("error", .str "E1")])]) =
        ({stActive with pending := .done r},
          [Action.cbEvent ev, Action.cbCompleted ev', Action.resolveTurn r], none) ∧
      r.success = isStrVal (List.lookup "status"
        [("status", JVal.str "error"), ("error", JVal.str "E1")]) "success" ∧
      r.output = .str "" ∧
      r.error_code = (if isStrVal (List.lookup "status"
          [("status", JVal.str "error"), ("error", JVal.str "E1")]) "success" then JVal.null
        else pyOr (List.lookup "error"
          [("status", JVal.str "error"), ("error", JVal.str "E1")]) (.str "task_failed")) :=
  claim_C3.1 env0 stActive [("result", .dict [("status", .str "error"), ("error", .str "E1")])]
    [("status", .str "error"), ("error", .str "E1")] "" rfl rfl rfl rfl

/-- Counterexample to C9 as stated: for the `task_completed` frame with
`output=true`, the handler raises TypeError before the completion
callback is dispatched — the action trace is only the `on_event`
dispatch, so the completion callback is not invoked for this terminal
frame. -/
theorem claim_C9_cex :
    ∃ ev, handlePayload env0 stActiveCb (some "task_completed") cexPayloadC9 =
      (stActiveCb, [Action.cbEvent ev], some (PyExc.typeError "object has no len()")) :=
  ⟨_, rfl⟩

/-- C9 (amended): for every `task_completed` frame whose result carries
a string (or absent) `output` and `message`, the completion callback is
dispatched unconditionally — even when no PendingTurn exists — and any
pending-turn resolution comes strictly after that dispatch. -/
theorem claim_C9 (env : Env) (st : AgentState) (pkvs rkvs : List (String × JVal))
    (out : String)
    (hres : List.lookup "result" pkvs = some (JVal.dict rkvs))
    (hout : strOutput rkvs "output" = some out)
    (hmsg : (strOutput rkvs "message").isSome = true) :
    ∃ st' ev ev' rest,
      handlePayload env st (some "task_completed") (.dict pkvs) =
        (st', [Action.cbEvent ev, Action.cbCompleted ev'] ++ rest, none) ∧
      (∀ a ∈ rest, ∃ r, a = Action.resolveTurn r) ∧
      (st.pending ≠ .waiting → rest = []) := by
  have hcons := completedConsole_benign pkvs rkvs out hres hout hmsg
  have hrb : resultField pkvs = .dict rkvs := by
    unfold resultField
    rw [hres]
    exact dict_pyor_self rkvs
  have hb1 : ((some "task_completed" : Option String) == some "task_progress") = false := rfl
  have hb2 : ((some "task_completed" : Option String) == some "task_await_input") = false := rfl
  have hb3 : ((some "task_completed" : Option String) == some "task_completed") = true := rfl
  by_cases hpend : st.pending = .waiting
  · refine ⟨{st with pending := .done (completedResult rkvs out (respField pkvs)
        ((List.lookup "delta" pkvs).getD .null) (builtEvent (some "task_completed") pkvs))},
      builtEvent (some "task_completed") pkvs,
      (builtEvent (some "task_completed") pkvs).dictSet "output" (.str out),
      [Action.resolveTurn (completedResult rkvs out (respField pkvs)
        ((List.lookup "delta" pkvs).getD .null) (builtEvent (some "task_completed") pkvs))],
      ?_, ?_, fun hne => absurd hpend hne⟩
    · simp only [handlePayload, handleDict, hcons, ite_self, hb1, hb2, hb3,
        Bool.false_eq_true, if_false, if_true, hrb]
      rw [completedBranch_benign_waiting st rkvs (respField pkvs)
        ((List.lookup "delta" pkvs).getD .null) (builtEvent (some "task_completed") pkvs)
        [Action.cbEvent (builtEvent (some "task_completed") pkvs)] out hout hpend]
      rfl
    · intro a ha
      simp only [List.mem_singleton] at ha
      exact ⟨_, ha⟩
  · refine ⟨st, builtEvent (some "task_completed") pkvs,
      (builtEvent (some "task_completed") pkvs).dictSet "output" (.str out),
      [], ?_, by simp, fun _ => rfl⟩
    simp only [handlePayload, handleDict, hcons, ite_self, hb1, hb2, hb3,
      Bool.false_eq_true, if_false, if_true, hrb]
    rw [completedBranch_benign_notwaiting st rkvs (respField pkvs)
      ((List.lookup "delta" pkvs).getD .null) (builtEvent (some "task_completed") pkvs)
      [Action.cbEvent (builtEvent (some "task_completed") pkvs)] out hout hpend]
    simp

/-- Witness for the amended C9 with no pending turn. -/
theorem claim_C9_witness :
    ∃ st' ev ev' rest,
      handlePayload env0 freshState (some "task_completed")
          (.dict [("result", .dict [("status", .str "success"), ("output", .str "done")])]) =
        (st', [Action.cbEvent ev, Action.cbCompleted ev'] ++ rest, none) ∧
      (∀ a ∈ rest, ∃ r, a = Action.resolveTurn r) ∧
      (freshState.pending ≠ .waiting → rest = []) :=
  claim_C9 env0 freshState
    [("result", .dict [("status", .str "success"), ("output", .str "done")])]
    [("status", .str "success"), ("output", .str "done")] "done" rfl rfl rfl

/-! ## C8: the SSE wire grammar -/

/-- Counterexample to C8 as stated: in the default configuration
(`stActive`: printing on, no completion callback, default callbacks), a
frame named `task_completed` whose data is malformed JSON degrades to
the raw payload but then raises KeyError in the default console block
(`event["data"]["result"]`, agent.py line 734): the consumer terminates
instead of continuing — the later `task_progress` frame is never
dispatched.  With a completion callback registered the same lines are
consumed without raising. -/
theorem claim_C8_cex :
    streamBody env0 stActive none none
        ["event: task_completed", "data: oops", "", "event: task_progress", "data: p", ""]
        .eof =
      (stActive, [], some (PyExc.keyError "result")) ∧
    (streamBody env0 stActiveCb none none
        ["event: task_completed", "data: oops", "", "event: task_progress", "data: p", ""]
        .eof).2.2 = none := by
  exact ⟨rfl, rfl⟩

/-- C8 (amended): the consumer parses the wire grammar as specified —
frames are delimited by a blank line (dispatch exactly when data was
accumulated, then reset), `event:` sets the type name, `data:` lines
are newline-joined, `": keepalive"` and unrecognized lines are ignored,
and malformed joined data degrades to the raw-text payload
`\x7b"raw": text\x7d`; such a frame is handled without raising — and the
consumer continues with the remaining lines — except when the default
console block for a `task_completed` frame runs (printing on, no
completion callback registered, default callbacks enabled; see the
counterexample). -/
theorem claim_C8 :
    (∀ nm d, sseStep nm (some d) "" = (none, none, some (nm, d))) ∧
    (∀ nm, sseStep nm none "" = (none, none, none)) ∧
    (∀ nm dat, sseStep nm dat ": keepalive" = (nm, dat, none)) ∧
    (∀ nm dat raw, pyStrip raw ≠ "" → pyStrip raw ≠ ": keepalive" →
      pyStartsWith (pyStrip raw) "event:" = true →
      sseStep nm dat raw = (some (pyStrip ((pyStrip raw).drop 6)), dat, none)) ∧
    (∀ nm d raw, pyStrip raw ≠ "" → pyStrip raw ≠ ": keepalive" →
      pyStartsWith (pyStrip raw) "event:" = false →
      pyStartsWith (pyStrip raw) "data:" = true →
      sseStep nm none raw = (nm, some (pyStrip ((pyStrip raw).drop 5)), none) ∧
      sseStep nm (some d) raw = (nm, some (d ++ "\n" ++ pyStrip ((pyStrip raw).drop 5)), none)) ∧
    (∀ nm dat raw, pyStrip raw ≠ "" → pyStrip raw ≠ ": keepalive" →
      pyStartsWith (pyStrip raw) "event:" = false →
      pyStartsWith (pyStrip raw) "data:" = false →
      sseStep nm dat raw = (nm, dat, none)) ∧
    (∀ env st nm d, env.jsonParse d = none →
      handleSSEEvent env st nm d = handlePayload env st nm (.dict [("raw", .str d)])) ∧
    (∀ env st nm d, env.jsonParse d = none →
      ¬(st.print_progress = true ∧ nm = some "task_completed" ∧
          st.on_completed_set = false ∧ st.use_default_callbacks = true) →
      (handleSSEEvent env st nm d).2.2 = none) ∧
    (∀ env st nm d rest endk st₁ a₁,
      st.stop_stream = false →
      handleSSEEvent env st nm d = (st₁, a₁, none) →
      streamBody env st nm (some d) ("" :: rest) endk =
        ((streamBody env st₁ none none rest endk).1,
          a₁ ++ (streamBody env st₁ none none rest endk).2.1,
          (streamBody env st₁ none none rest endk).2.2)) := by
  refine ⟨fun nm d => rfl, fun nm => rfl, fun nm dat => rfl, ?_, ?_, ?_, ?_, ?_, ?_⟩
  · intro nm dat raw h1 h2 h3
    unfold sseStep
    rw [if_neg (by simpa using h1), if_neg (by simpa using h2), if_pos h3]
  · intro nm d raw h1 h2 h3 h4
    constructor <;>
      · unfold sseStep
        rw [if_neg (by simpa using h1), if_neg (by simpa using h2), if_neg (by simp [h3]),
          if_pos h4]
  · intro nm dat raw h1 h2 h3 h4
    unfold sseStep
    rw [if_neg (by simpa using h1), if_neg (by simpa using h2), if_neg (by simp [h3]),
      if_neg (by simp [h4])]
  · intro env st nm d hparse
    simp [handleSSEEvent, hparse]
  · intro env st nm d hparse hsafe
    have hcond : (st.print_progress && nm == some "task_completed" &&
        !st.on_completed_set && st.use_default_callbacks) = false := by
      by_contra hc
      rw [Bool.not_eq_false] at hc
      simp only [Bool.and_eq_true, beq_iff_eq, Bool.not_eq_true'] at hc
      exact hsafe ⟨hc.1.1.1, hc.1.1.2, hc.1.2, hc.2⟩
    simp only [handleSSEEvent, hparse, handlePayload, handleDict, hcond,
      Bool.false_eq_true, if_false]
    by_cases hn1 : nm == some "task_progress"
    · simp [hn1]
    · by_cases hn2 : nm == some "task_await_input"
      · simp only [hn1, hn2, Bool.false_eq_true, if_false, if_true]
        by_cases hw : st.on_waiting_input_set
        · simp [hw]
        · by_cases hu : st.use_default_callbacks
          · rcases hai : awaitInputDefault env st with ⟨st', a'⟩
            simp [hw, hu, hai]
          · simp [hw, hu]
      · by_cases hn3 : nm == some "task_completed"
        · simp only [hn1, hn2, hn3, Bool.false_eq_true, if_false, if_true]
          unfold completedBranch resultField respField
          simp only [List.lookup, pyGetD, pyGet, Except.map, pyLen]
          cases st.pending <;> rfl
        · simp [hn1, hn2, hn3]
  · intro env st nm d rest endk st₁ a₁ hstop hhandle
    have hstep : sseStep nm (some d) "" = (none, none, some (nm, d)) := rfl
    conv_lhs => rw [streamBody]
    rw [if_neg (by simp [hstop]), hstep]
    dsimp only
    rw [hhandle]

/-- Witness for C8 at concrete inputs: an event line with surrounding
whitespace, and a malformed data segment handled and continued past. -/
theorem claim_C8_witness :
    sseStep none none "  event: task_done  " = (some "task_done", none, none) ∧
    handleSSEEvent env0 stActiveCb (some "task_progress") "oops" =
      handlePayload env0 stActiveCb (some "task_progress") (.dict [("raw", .str "oops")]) ∧
    (handleSSEEvent env0 stActiveCb (some "task_completed") "oops").2.2 = none := by
  refine ⟨?_, claim_C8.2.2.2.2.2.2.1 env0 stActiveCb (some "task_progress") "oops" rfl,
    claim_C8.2.2.2.2.2.2.2.1 env0 stActiveCb (some "task_completed") "oops" rfl
      (by intro h; exact absurd h.2.2.1 (by decide))⟩
  have := claim_C8.2.2.2.1 none none "  event: task_done  " (by decide) (by decide) (by decide)
  simpa using this

/-! ## C2: the single pending-turn slot -/

theorem ensureSession_pending (o : HttpOutcome) (st : AgentState) :
    (ensureSession o st).1.pending = st.pending := by
  unfold ensureSession
  split
  · rfl
  · split
    · rfl
    · split
      · rfl
      · split
        · rfl
        · split <;> rfl

theorem startTaskCall_pending (sessResp createResp : HttpOutcome) (st : AgentState)
    (s : String) :
    (startTaskCall sessResp createResp st s).1.pending = st.pending := by
  unfold startTaskCall
  rcases hses : ensureSession sessResp st with ⟨st₁, a₁, r₁⟩
  have hp1 : st₁.pending = st.pending := by
    have h := ensureSession_pending sessResp st
    rw [hses] at h
    exact h
  cases r₁ with
  | error e => simp [hses, hp1]
  | ok sid =>
    simp only [hses]
    repeat' first
      | exact hp1
      | split

theorem ensureEventStream_pending (st : AgentState) :
    (ensureEventStream st).1.pending = st.pending := by
  unfold ensureEventStream
  split
  · rfl
  · split <;> rfl

theorem waitBegin_waiting (st : AgentState) (h : st.pending = .waiting) :
    waitBegin st =
      (st, .error (mkSDKError (.str "Another task turn is already waiting for completion. Wait for it to finish before starting/resuming again.")
        (some (.str "task_turn_in_progress")))) := by
  unfold waitBegin
  rw [h]

/-- Counterexample to C2 as stated: a second `run_task` issued while
`stActive`'s turn is outstanding does return `task_turn_in_progress` —
but only after creating a new task over the network, and its except
clause resolves the outstanding turn with a failure
(`event_stream_error`), so the first caller does not receive its own
turn's outcome and the slot is not left untouched. -/
theorem claim_C2_cex :
    stActive.pending = Pending.waiting ∧
    (runTask .timeout createOkC2 stActive (.str "q")).1.pending = Pending.done frC2 ∧
    frC2.success = false ∧ frC2.error_code = .str "event_stream_error" ∧
    (runTask .timeout createOkC2 stActive (.str "q")).2.2 = .returned rrC2 ∧
    rrC2.error_code = .str "task_turn_in_progress" ∧
    (runTask .timeout createOkC2 stActive (.str "q")).2.1 =
      [Action.post "/v1/task/create", Action.cbCompleted evC2, Action.resolveTurn frC2] := by
  exact ⟨rfl, rfl, rfl, rfl, rfl, rfl, rfl⟩

/-- C2 (amended): at most one PendingTurn exists at any instant — a
call made while a turn is outstanding never creates, replaces, or
awaits the slot.  `resume_task` returns immediately with
`task_turn_in_progress`, performing no action and leaving the state
(hence the first turn's slot) untouched.  `run_task`, however, first
creates a new task over the network; its generic except clause then
resolves the outstanding turn with a failure `RunResult`
(`error_code "event_stream_error"`) while returning the
`task_turn_in_progress` failure, so the first caller is released with
that failure instead of its own turn's outcome. -/
theorem claim_C2 :
    (∀ resumeResp st s, st.session_id.isNull = false → st.current_task_id.isNull = false →
      st.pending = .waiting → argInvalid (.str s) = false →
      ∃ r, resumeTask resumeResp st (.str s) = (st, [], .returned r) ∧
        r.error_code = .str "task_turn_in_progress") ∧
    (∀ sessResp createResp resumeResp st q, st.pending = .waiting →
      (runTask sessResp createResp st q).2.2 ≠ .awaitingTurn ∧
      (resumeTask resumeResp st q).2.2 ≠ .awaitingTurn) ∧
    (∀ sessResp createResp st st₁ a₁ tid s, st.pending = .waiting →
      argInvalid (.str s) = false →
      startTaskCall sessResp createResp st s = (st₁, a₁, .ok tid) →
      st₁.session_id.isNull = false → st₁.current_task_id.isNull = false →
      ∃ ev fr rr,
        (runTask sessResp createResp st (.str s)).1.pending = .done fr ∧
        fr.success = false ∧ fr.error_code = .str "event_stream_error" ∧
        (runTask sessResp createResp st (.str s)).2.1 =
          a₁ ++ [Action.cbCompleted ev, Action.resolveTurn fr] ∧
        (runTask sessResp createResp st (.str s)).2.2 = .returned rr ∧
        rr.success = false ∧ rr.error_code = .str "task_turn_in_progress" ∧
        (waitFinish (runTask sessResp createResp st (.str s)).1).2 = some fr) := by
  refine ⟨?_, ?_, ?_⟩
  · intro resumeResp st s hsess htask hpend harg
    unfold resumeTask
    rw [if_neg (by simp [harg]), if_neg (by simp [hsess, htask]), hpend]
    exact ⟨_, rfl, rfl⟩
  · intro sessResp createResp resumeResp st q hpend
    constructor
    · cases q with
      | none => exact fun h => CallOutcome.noConfusion h
      | int n => exact fun h => CallOutcome.noConfusion h
      | str s =>
        unfold runTask
        by_cases harg : argInvalid (.str s) = true
        · rw [if_pos harg]
          exact fun h => CallOutcome.noConfusion h
        · rw [if_neg harg]
          dsimp only
          rcases hst1 : startTaskCall sessResp createResp st s with ⟨st₁, a₁, r₁⟩
          have hp1 : st₁.pending = .waiting := by
            have h := startTaskCall_pending sessResp createResp st s
            rw [hst1] at h
            rw [h, hpend]
          cases r₁ with
          | error e =>
            unfold runTaskExcept
            exact fun h => CallOutcome.noConfusion h
          | ok tid =>
            dsimp only
            rcases hee : ensureEventStream st₁ with ⟨st₂, r₂⟩
            have hp2 : st₂.pending = .waiting := by
              have h := ensureEventStream_pending st₁
              rw [hee] at h
              rw [h, hp1]
            cases r₂ with
            | error e =>
              unfold runTaskExcept
              exact fun h => CallOutcome.noConfusion h
            | ok u =>
              dsimp only
              rw [waitBegin_waiting st₂ hp2]
              unfold runTaskExcept
              exact fun h => CallOutcome.noConfusion h
    · cases q with
      | none => exact fun h => CallOutcome.noConfusion h
      | int n => exact fun h => CallOutcome.noConfusion h
      | str s =>
        unfold resumeTask
        by_cases harg : argInvalid (.str s) = true
        · rw [if_pos harg]
          exact fun h => CallOutcome.noConfusion h
        · rw [if_neg harg]
          by_cases hna : (st.session_id.isNull || st.current_task_id.isNull) = true
          · rw [if_pos hna]
            exact fun h => CallOutcome.noConfusion h
          · rw [if_neg hna, hpend]
            exact fun h => CallOutcome.noConfusion h
  · intro sessResp createResp st st₁ a₁ tid s hpend harg hst1 hsess htask
    have hp1 : st₁.pending = .waiting := by
      have h := startTaskCall_pending sessResp createResp st s
      rw [hst1] at h
      rw [h, hpend]
    unfold runTask
    rw [if_neg (by simp [harg])]
    dsimp only
    rw [hst1]
    dsimp only
    by_cases hlive : st₁.stream_live = true
    · have hee : ensureEventStream st₁ = (st₁, .ok ()) := by
        unfold ensureEventStream
        rw [if_neg (by simp [hsess, htask]), if_pos hlive]
      rw [hee]
      dsimp only
      rw [waitBegin_waiting st₁ hp1]
      dsimp only
      unfold runTaskExcept
      obtain ⟨fr, hfail, hs, hrsn, hec, _⟩ := failPending_waiting _ _ st₁ hp1
      rw [hfail]
      exact ⟨_, fr, _, rfl, hs, hec, rfl, rfl, rfl, rfl, rfl⟩
    · have hee : ensureEventStream st₁ =
          ({st₁ with stop_stream := false, stream_live := true}, .ok ()) := by
        unfold ensureEventStream
        rw [if_neg (by simp [hsess, htask]), if_neg hlive]
      rw [hee]
      dsimp only
      rw [waitBegin_waiting {st₁ with stop_stream := false, stream_live := true} hp1]
      dsimp only
      unfold runTaskExcept
      obtain ⟨fr, hfail, hs, hrsn, hec, _⟩ :=
        failPending_waiting _ _ {st₁ with stop_stream := false, stream_live := true} hp1
      rw [hfail]
      exact ⟨_, fr, _, rfl, hs, hec, rfl, rfl, rfl, rfl, rfl⟩

/-- Witness for the amended C2: the resume_task arm on `stActive`. -/
theorem claim_C2_witness :
    ∃ r, resumeTask .timeout stActive (.str "again") = (stActive, [], .returned r) ∧
      r.error_code = .str "task_turn_in_progress" :=
  claim_C2.1 .timeout stActive "again" rfl rfl rfl rfl

theorem failPending_shape (reason : String) (excRepr : JVal) (st : AgentState)
    (r : RunResult)
    (h : Action.resolveTurn r ∈ (failPendingTurnGracefully reason excRepr st).2) :
    shapeOK r = true := by
  unfold failPendingTurnGracefully at h
  rcases hp : st.pending with _ | _ | r0
  all_goals rw [hp] at h
  · simp at h
  · simp at h
    subst h
    rfl
  · simp at h

theorem postResult_err_truthy (path : String) (o : HttpOutcome) (e : PyExc)
    (h : postResult path o = .error e) : e.errCode.truthy = true := by
  unfold postResult at h
  cases o with
  | timeout =>
    injection h with h'
    subst h'
    exact mkSDKError_code_truthy _ _
  | transportError =>
    injection h with h'
    subst h'
    exact mkSDKError_code_truthy _ _
  | response status body =>
    rcases body with _ | data
    · injection h with h'
      subst h'
      exact mkSDKError_code_truthy _ _
    · dsimp only at h
      by_cases hs : status ≠ 200
      · rw [if_pos hs] at h
        cases data <;> simp only [pyGet] at h <;> injection h with h' <;> subst h' <;>
          first
          | exact mkSDKError_code_truthy _ _
          | rfl
      · rw [if_neg hs] at h
        exact absurd h (by simp)

theorem postResult_ok (path : String) (o : HttpOutcome) (d : JVal)
    (h : postResult path o = .ok d) : o = .response 200 (some d) := by
  unfold postResult at h
  cases o with
  | timeout => exact absurd h (by simp)
  | transportError => exact absurd h (by simp)
  | response status body =>
    rcases body with _ | data
    · exact absurd h (by simp)
    · dsimp only at h
      by_cases hs : status ≠ 200
      · rw [if_pos hs] at h
        cases data <;> simp only [pyGet] at h <;> exact absurd h (by simp)
      · rw [if_neg hs] at h
        injection h with h'
        subst h'
        have h200 : status = 200 := by omega
        rw [h200]

theorem ensureSession_err_truthy (o : HttpOutcome) (st : AgentState) (e : PyExc)
    (h : (ensureSession o st).2.2 = .error e) : e.errCode.truthy = true := by
  unfold ensureSession at h
  split at h
  · exact absurd h (by simp)
  · split at h
    case h_1 e0 heq =>
      simp only at h
      injection h with h0
      subst h0
      exact postResult_err_truthy _ _ _ heq
    case h_2 data heq =>
      split at h
      case h_1 exc heq2 =>
        simp only at h
        injection h with h0
        subst h0
        cases data
        case dict kvs => exact absurd heq2 (by simp [pyGet])
        all_goals simp only [pyGet] at heq2
        all_goals injection heq2 with h1
        all_goals subst h1
        all_goals rfl
      case h_2 status? heq2 =>
        split at h
        · simp only at h
          injection h with h0
          subst h0
          exact mkSDKError_code_truthy _ _
        · split at h
          case h_1 exc heq3 =>
            simp only at h
            injection h with h0
            subst h0
            cases data
            case dict kvs =>
              simp only [pyIndex] at heq3
              split at heq3
              · exact absurd heq3 (by simp)
              · injection heq3 with h4
                subst h4
                rfl
            all_goals simp only [pyIndex] at heq3
            all_goals injection heq3 with h4
            all_goals subst h4
            all_goals rfl
          case h_2 sid heq3 =>
            exact absurd h (by simp)

theorem pyGet_err_truthy (v : JVal) (k : String) (e : PyExc)
    (h : pyGet v k = .error e) : e.errCode.truthy = true := by
  cases v <;> simp only [pyGet] at h <;>
    first
    | (injection h with h0 <;> subst h0 <;> rfl)
    | injection h

theorem pyIndex_err_truthy (v : JVal) (k : String) (e : PyExc)
    (h : pyIndex v k = .error e) : e.errCode.truthy = true := by
  cases v <;> simp only [pyIndex] at h <;>
    first
    | (split at h <;>
        first
        | (injection h with h0 <;> subst h0 <;> rfl)
        | injection h)
    | (injection h with h0 <;> subst h0 <;> rfl)

theorem ensureEventStream_err_truthy (st : AgentState) (e : PyExc)
    (h : (ensureEventStream st).2 = .error e) : e.errCode.truthy = true := by
  unfold ensureEventStream at h
  split at h
  · dsimp only at h
    injection h with h0
    subst h0
    exact mkSDKError_code_truthy _ _
  · split at h
    · exact absurd h (by simp)
    · exact absurd h (by simp)

theorem waitBegin_err_truthy (st : AgentState) (e : PyExc)
    (h : (waitBegin st).2 = .error e) : e.errCode.truthy = true := by
  unfold waitBegin at h
  split at h
  · dsimp only at h
    injection h with h0
    subst h0
    exact mkSDKError_code_truthy _ _
  · exact absurd h (by simp)

theorem startTaskCall_err_truthy (sessResp createResp : HttpOutcome) (st : AgentState)
    (q : String) (e : PyExc)
    (h : (startTaskCall sessResp createResp st q).2.2 = .error e) :
    e.errCode.truthy = true := by
  unfold startTaskCall at h
  rcases hes : ensureSession sessResp st with ⟨st₁, a₁, r₁⟩
  rw [hes] at h
  dsimp only at h
  cases r₁ with
  | error e0 =>
    dsimp only at h
    injection h with h0
    subst h0
    exact ensureSession_err_truthy sessResp st e0 (by rw [hes])
  | ok v =>
    dsimp only at h
    rcases hpr : postResult "/v1/task/create" createResp with e0 | data
    · rw [hpr] at h
      dsimp only at h
      injection h with h0
      subst h0
      exact postResult_err_truthy _ _ _ hpr
    · rw [hpr] at h
      dsimp only at h
      rcases hpg : pyGet data "status" with e0 | status?
      · rw [hpg] at h
        dsimp only at h
        injection h with h0
        subst h0
        exact pyGet_err_truthy _ _ _ hpg
      · rw [hpg] at h
        dsimp only at h
        split at h
        · dsimp only at h
          injection h with h0
          subst h0
          exact mkSDKError_code_truthy _ _
        · rcases hpi : pyIndex data "task_id" with e0 | tid
          · rw [hpi] at h
            dsimp only at h
            injection h with h0
            subst h0
            exact pyIndex_err_truthy _ _ _ hpi
          · rw [hpi] at h
            dsimp only at h
            exact absurd h (by simp)

theorem runTaskExcept_shape (st : AgentState) (acts : List Action) (e : PyExc)
    (st' : AgentState) (acts' : List Action) (r : RunResult)
    (he : e.errCode.truthy = true)
    (h : runTaskExcept st acts e = (st', acts', .returned r)) :
    shapeOK r = true := by
  unfold runTaskExcept at h
  dsimp only at h
  simp only [Prod.mk.injEq] at h
  obtain ⟨h1, h2, h3⟩ := h
  injection h3 with h3
  subst h3
  exact he

theorem resumeExcept_shape (st : AgentState) (acts : List Action) (e : PyExc)
    (st' : AgentState) (acts' : List Action) (r : RunResult)
    (he : e.errCode.truthy = true)
    (h : resumeExcept st acts e = (st', acts', .returned r)) :
    shapeOK r = true := by
  unfold resumeExcept at h
  dsimp only at h
  simp only [Prod.mk.injEq] at h
  obtain ⟨h1, h2, h3⟩ := h
  injection h3 with h3
  subst h3
  exact he

theorem runTask_shape (sessResp createResp : HttpOutcome) (st : AgentState)
    (query : PyArg) (st' : AgentState) (acts : List Action) (r : RunResult)
    (h : runTask sessResp createResp st query = (st', acts, .returned r)) :
    shapeOK r = true := by
  unfold runTask at h
  split at h
  · simp only [Prod.mk.injEq] at h
    obtain ⟨h1, h2, h3⟩ := h
    injection h3 with h3
    subst h3
    rfl
  next hneg =>
    cases query with
    | none => exact absurd rfl hneg
    | int n => exact absurd rfl hneg
    | str s =>
      dsimp only at h
      rcases hst : startTaskCall sessResp createResp st s with ⟨st₁, a₁, r₁⟩
      rw [hst] at h
      dsimp only at h
      cases r₁ with
      | error e =>
        exact runTaskExcept_shape st₁ a₁ e st' acts r
          (startTaskCall_err_truthy sessResp createResp st s e (by rw [hst])) h
      | ok v =>
        dsimp only at h
        rcases hev : ensureEventStream st₁ with ⟨st₂, r₂⟩
        rw [hev] at h
        cases r₂ with
        | error e =>
          exact runTaskExcept_shape st₂ a₁ e st' acts r
            (ensureEventStream_err_truthy st₁ e (by rw [hev])) h
        | ok u =>
          dsimp only at h
          rcases hwb : waitBegin st₂ with ⟨st₃, r₃⟩
          rw [hwb] at h
          cases r₃ with
          | error e =>
            exact runTaskExcept_shape st₃ a₁ e st' acts r
              (waitBegin_err_truthy st₂ e (by rw [hwb])) h
          | ok u2 =>
            dsimp only at h
            simp only [Prod.mk.injEq] at h
            obtain ⟨h1, h2, h3⟩ := h
            exact absurd h3 (by simp)

theorem resumeStatusOk_of_success (v : Option JVal) (h : isStrVal v "success" = true) :
    resumeStatusOk v = true := by
  cases v with
  | none => rfl
  | some jv =>
    cases jv with
    | str s =>
      simp only [isStrVal] at h
      simp only [beq_iff_eq] at h
      subst h
      rfl
    | null => exact absurd h (by simp [isStrVal])
    | bool b => exact absurd h (by simp [isStrVal])
    | int n => exact absurd h (by simp [isStrVal])
    | list xs => exact absurd h (by simp [isStrVal])
    | dict kvs => exact absurd h (by simp [isStrVal])

theorem toolCall_shape (sessResp resp : HttpOutcome) (st : AgentState)
    (path failCode failMsg okOutput : String)
    (hfc : (JVal.str failCode).truthy = true)
    (hu : errFieldUsable resp) :
    shapeOK (toolCall sessResp resp st path failCode failMsg okOutput).2.2 = true := by
  unfold toolCall
  rcases hes : ensureSession sessResp st with ⟨st₁, a₁, r₁⟩
  dsimp only
  cases r₁ with
  | error e =>
    exact ensureSession_err_truthy sessResp st e (by rw [hes])
  | ok v =>
    dsimp only
    rcases hpr : postResult path resp with e | data
    · exact postResult_err_truthy _ _ _ hpr
    · dsimp only
      rcases hpg : pyGet data "status" with e | status?
      · exact pyGet_err_truthy _ _ _ hpg
      · dsimp only
        have hresp := postResult_ok _ _ _ hpr
        cases hss : isStrVal status? "success"
        · cases data with
          | dict kvs =>
            simp only [pyGet] at hpg
            injection hpg with hpg1
            subst hpg1
            have hcond := hu 200 kvs hresp hss
            show (JVal.getD (JVal.dict kvs) "error" (JVal.str failCode)).truthy = true
            simp only [JVal.getD, JVal.lookup]
            cases hlk : List.lookup "error" kvs with
            | none => exact hfc
            | some v2 =>
              rw [hlk] at hcond
              exact hcond
          | null => exact absurd hpg (by simp [pyGet])
          | bool b => exact absurd hpg (by simp [pyGet])
          | int n => exact absurd hpg (by simp [pyGet])
          | str s => exact absurd hpg (by simp [pyGet])
          | list xs => exact absurd hpg (by simp [pyGet])
        · rfl

theorem resumeTask_shape (resumeResp : HttpOutcome) (st : AgentState) (q : PyArg)
    (st' : AgentState) (acts : List Action) (r : RunResult)
    (hu : errFieldUsable resumeResp)
    (h : resumeTask resumeResp st q = (st', acts, .returned r)) :
    shapeOK r = true := by
  unfold resumeTask at h
  split at h
  · simp only [Prod.mk.injEq] at h
    obtain ⟨h1, h2, h3⟩ := h
    injection h3 with h3
    subst h3
    rfl
  · split at h
    · dsimp only at h
      simp only [Prod.mk.injEq] at h
      obtain ⟨h1, h2, h3⟩ := h
      injection h3 with h3
      subst h3
      rfl
    · split at h
      · dsimp only at h
        simp only [Prod.mk.injEq] at h
        obtain ⟨h1, h2, h3⟩ := h
        injection h3 with h3
        subst h3
        rfl
      · dsimp only at h
        rcases hev : ensureEventStream {st with pending := Pending.waiting} with ⟨st₁, r₂⟩
        rw [hev] at h
        cases r₂ with
        | error e =>
          exact resumeExcept_shape st₁ [] e st' acts r
            (ensureEventStream_err_truthy _ e (by rw [hev])) h
        | ok u =>
          dsimp only at h
          rcases hpr : postResult "/v1/task/resume" resumeResp with e | data
          · rw [hpr] at h
            dsimp only at h
            exact resumeExcept_shape _ _ e st' acts r
              (postResult_err_truthy _ _ _ hpr) h
          · rw [hpr] at h
            dsimp only at h
            rcases hpg : pyGet data "status" with e | status?
            · rw [hpg] at h
              dsimp only at h
              exact resumeExcept_shape _ _ e st' acts r
                (pyGet_err_truthy _ _ _ hpg) h
            · rw [hpg] at h
              dsimp only at h
              split at h
              next hbs =>
                simp only [Prod.mk.injEq] at h
                obtain ⟨h1, h2, h3⟩ := h
                injection h3 with h3
                subst h3
                have hresp := postResult_ok _ _ _ hpr
                have hnotok : resumeStatusOk status? = false := by
                  cases hx : resumeStatusOk status?
                  · rfl
                  · rw [hx] at hbs
                    exact absurd hbs (by simp)
                have hss : isStrVal status? "success" = false := by
                  cases hx : isStrVal status? "success"
                  · rfl
                  · have hok := resumeStatusOk_of_success status? hx
                    rw [hnotok] at hok
                    exact absurd hok (by simp)
                cases data with
                | dict kvs =>
                  simp only [pyGet] at hpg
                  injection hpg with hpg1
                  subst hpg1
                  have hcond := hu 200 kvs hresp hss
                  show (JVal.getD (JVal.dict kvs) "error" (JVal.str "task_resume_failed")).truthy = true
                  simp only [JVal.getD, JVal.lookup]
                  cases hlk : List.lookup "error" kvs with
                  | none => rfl
                  | some v2 =>
                    rw [hlk] at hcond
                    exact hcond
                | null => exact absurd hpg (by simp [pyGet])
                | bool b => exact absurd hpg (by simp [pyGet])
                | int n => exact absurd hpg (by simp [pyGet])
                | str s => exact absurd hpg (by simp [pyGet])
                | list xs => exact absurd hpg (by simp [pyGet])
              next hbs =>
                simp only [Prod.mk.injEq] at h
                obtain ⟨h1, h2, h3⟩ := h
                exact absurd h3 (by simp)

theorem completedBranch_resolve_shape (st : AgentState) (rb resp delta ev : JVal)
    (acts : List Action) (r : RunResult)
    (hacts : ∀ r2, Action.resolveTurn r2 ∈ acts → shapeOK r2 = true)
    (h : Action.resolveTurn r ∈ (completedBranch st rb resp delta ev acts).2.1) :
    shapeOK r = true := by
  unfold completedBranch at h
  split at h
  · exact hacts r h
  · dsimp only at h
    split at h
    · exact hacts r h
    · split at h
      · simp only [List.mem_append, List.mem_cons, List.not_mem_nil, or_false] at h
        rcases h with (h | h) | h
        · exact hacts r h
        · exact absurd h (by simp)
        · injection h with h0
          subst h0
          cases hsucc : isStrVal (JVal.lookup rb "status") "success"
          · simpa [shapeOK] using
              pyOr_truthy (JVal.lookup rb "error") (JVal.str "task_failed") rfl
          · simp [shapeOK, JVal.isNull]
      · simp only [List.mem_append, List.mem_cons, List.not_mem_nil, or_false] at h
        rcases h with h | h
        · exact hacts r h
        · exact absurd h (by simp)

theorem awaitInputDefault_resolve_shape (env : Env) (st : AgentState) (r : RunResult)
    (h : Action.resolveTurn r ∈ (awaitInputDefault env st).2) : shapeOK r = true := by
  unfold awaitInputDefault at h
  split at h
  · dsimp only at h
    split at h
    · dsimp only at h
      simp only [List.mem_append, List.mem_cons, List.not_mem_nil, or_false] at h
      rcases h with (h | h) | h
      · exact absurd h (by simp)
      · exact absurd h (by simp)
      · exact failPending_shape _ _ _ _ h
    · simp at h
  · simp at h

theorem handleDict_resolve_shape (env : Env) (st : AgentState) (nm : Option String)
    (pkvs : List (String × JVal)) (r : RunResult)
    (h : Action.resolveTurn r ∈ (handleDict env st nm pkvs).2.1) : shapeOK r = true := by
  unfold handleDict at h
  dsimp only at h
  split at h
  · simp at h
  · split at h
    · simp at h
    · split at h
      · split at h
        · simp at h
        · split at h
          · rcases haid : awaitInputDefault env st with ⟨st₁, a₁⟩
            rw [haid] at h
            dsimp only at h
            simp only [List.mem_append, List.mem_cons, List.not_mem_nil, or_false] at h
            rcases h with h | h
            · exact absurd h (by simp)
            · exact awaitInputDefault_resolve_shape env st r (by rw [haid]; exact h)
          · simp at h
      · split at h
        · exact completedBranch_resolve_shape _ _ _ _ _ _ r
            (by intro r2 hr2; simp at hr2) h
        · simp at h

theorem handlePayload_resolve_shape (env : Env) (st : AgentState) (nm : Option String)
    (payload : JVal) (r : RunResult)
    (h : Action.resolveTurn r ∈ (handlePayload env st nm payload).2.1) :
    shapeOK r = true := by
  unfold handlePayload at h
  split at h
  · exact handleDict_resolve_shape _ _ _ _ r h
  · simp at h

theorem handleSSEEvent_resolve_shape (env : Env) (st : AgentState) (nm : Option String)
    (data_str : String) (r : RunResult)
    (h : Action.resolveTurn r ∈ (handleSSEEvent env st nm data_str).2.1) :
    shapeOK r = true := by
  unfold handleSSEEvent at h
  exact handlePayload_resolve_shape _ _ _ _ r h

theorem streamBody_resolve_shape (env : Env) (lines : List String) :
    ∀ (st : AgentState) (nm dat : Option String) (endk : StreamEnd) (r : RunResult),
      Action.resolveTurn r ∈ (streamBody env st nm dat lines endk).2.1 →
      shapeOK r = true := by
  induction lines with
  | nil =>
    intro st nm dat endk r h
    unfold streamBody at h
    cases endk <;> simp at h
  | cons raw rest ih =>
    intro st nm dat endk r h
    unfold streamBody at h
    split at h
    · simp at h
    · rcases hstep : sseStep nm dat raw with ⟨nm1, dat1, disp⟩
      rw [hstep] at h
      dsimp only at h
      cases disp with
      | none => exact ih st nm1 dat1 endk r h
      | some frame =>
        rcases frame with ⟨fn, fd⟩
        dsimp only at h
        rcases hh : handleSSEEvent env st fn fd with ⟨st₁, a₁, crash⟩
        rw [hh] at h
        dsimp only at h
        cases crash with
        | some e =>
          exact handleSSEEvent_resolve_shape env st fn fd r (by rw [hh]; exact h)
        | none =>
          dsimp only at h
          simp only [List.mem_append] at h
          rcases h with h | h
          · exact handleSSEEvent_resolve_shape env st fn fd r (by rw [hh]; exact h)
          · exact ih st₁ nm1 dat1 endk r h

theorem streamLoopFinalize_resolve_shape (error : Option PyExc) (st : AgentState)
    (r : RunResult)
    (h : Action.resolveTurn r ∈ (streamLoopFinalize error st).2) : shapeOK r = true := by
  unfold streamLoopFinalize at h
  exact failPending_shape _ _ _ _ h

theorem awaitStreamRun_resolve_shape (env : Env) (st : AgentState) (lines : List String)
    (endk : StreamEnd) (r : RunResult)
    (h : Action.resolveTurn r ∈ (awaitStreamRun env st lines endk).2) :
    shapeOK r = true := by
  unfold awaitStreamRun at h
  rcases hb : streamBody env st none none lines endk with ⟨st₁, a₁, err⟩
  rw [hb] at h
  dsimp only at h
  rcases hf : streamLoopFinalize err st₁ with ⟨st₂, a₂⟩
  rw [hf] at h
  dsimp only at h
  simp only [List.mem_append] at h
  rcases h with h | h
  · exact streamBody_resolve_shape env lines st none none endk r (by rw [hb]; exact h)
  · exact streamLoopFinalize_resolve_shape err st₁ r (by rw [hf]; exact h)

theorem stopTask_resolve_shape (env : Env) (closeResp : HttpOutcome) (lines : List String)
    (endk : StreamEnd) (st : AgentState) (r : RunResult)
    (h : Action.resolveTurn r ∈ (stopTask env closeResp lines endk st).2) :
    shapeOK r = true := by
  unfold stopTask at h
  dsimp only at h
  simp only [List.mem_append] at h
  rcases h with (h | h) | h
  · split at h <;> simp at h
  · split at h
    · exact awaitStreamRun_resolve_shape env _ lines endk r h
    · simp at h
  · exact failPending_shape _ _ _ _ h

theorem errFieldUsable_respOkC4 : errFieldUsable respOkC4 := by
  intro status kvs h hstat
  injection h with h1 h2
  injection h2 with h2
  injection h2 with h2
  subst h2
  exact rfl

/-- C4 (corrected): every `RunResult` at the public surface satisfies
the shape invariant — unconditionally for `run_task`'s returned results
and for every turn resolution performed by `stop_task` (including those
its stream shutdown delivers), and for `resume_task` and the eight tool
methods provided the backend's failure bodies carry a usable `error`
field (absent or truthy): those paths copy `data.get("error", default)`
into `error_code` verbatim, so a present-but-falsy `error` field (see
the counterexample) violates the invariant. -/
theorem claim_C4 :
    (∀ sessResp createResp st q st' acts r,
      runTask sessResp createResp st q = (st', acts, .returned r) →
      shapeOK r = true) ∧
    (∀ resumeResp st q st' acts r, errFieldUsable resumeResp →
      resumeTask resumeResp st q = (st', acts, .returned r) →
      shapeOK r = true) ∧
    (∀ env closeResp lines endk st r,
      Action.resolveTurn r ∈ (stopTask env closeResp lines endk st).2 →
      shapeOK r = true) ∧
    (∀ sessResp resp st pkg, errFieldUsable resp →
      shapeOK (startApp sessResp resp st pkg).2.2 = true) ∧
    (∀ sessResp resp st ms, errFieldUsable resp →
      shapeOK (delayCall sessResp resp st ms).2.2 = true) ∧
    (∀ sessResp resp st, errFieldUsable resp →
      shapeOK (homeCall sessResp resp st).2.2 = true) ∧
    (∀ sessResp resp st, errFieldUsable resp →
      shapeOK (backCall sessResp resp st).2.2 = true) ∧
    (∀ sessResp resp st text, errFieldUsable resp →
      shapeOK (inputTextCall sessResp resp st text).2.2 = true) ∧
    (∀ sessResp resp st keycode, errFieldUsable resp →
      shapeOK (pressKeyCall sessResp resp st keycode).2.2 = true) ∧
    (∀ sessResp resp st sx sy ex ey dur, errFieldUsable resp →
      shapeOK (swipeCall sessResp resp st sx sy ex ey dur).2.2 = true) ∧
    (∀ sessResp resp st x y, errFieldUsable resp →
      shapeOK (tapCall sessResp resp st x y).2.2 = true) := by
  refine ⟨?_, ?_, ?_, ?_, ?_, ?_, ?_, ?_, ?_, ?_, ?_⟩
  · intro sessResp createResp st q st' acts r h
    exact runTask_shape sessResp createResp st q st' acts r h
  · intro resumeResp st q st' acts r hu h
    exact resumeTask_shape resumeResp st q st' acts r hu h
  · intro env closeResp lines endk st r h
    exact stopTask_resolve_shape env closeResp lines endk st r h
  · intro sessResp resp st pkg hu
    unfold startApp
    split
    · rfl
    · exact toolCall_shape sessResp resp st _ _ _ _ rfl hu
  · intro sessResp resp st ms hu
    unfold delayCall
    split
    · rfl
    · exact toolCall_shape sessResp resp st _ _ _ _ rfl hu
  · intro sessResp resp st hu
    exact toolCall_shape sessResp resp st _ _ _ _ rfl hu
  · intro sessResp resp st hu
    exact toolCall_shape sessResp resp st _ _ _ _ rfl hu
  · intro sessResp resp st text hu
    unfold inputTextCall
    split
    · dsimp only
      split
      · rfl
      · exact toolCall_shape sessResp resp st "/v1/tools/input_text" "input_text_failed"
          "Unknown input_text error" "input_text executed" rfl hu
    · rfl
  · intro sessResp resp st keycode hu
    unfold pressKeyCall
    split
    · rfl
    · exact toolCall_shape sessResp resp st _ _ _ _ rfl hu
  · intro sessResp resp st sx sy ex ey dur hu
    unfold swipeCall
    split
    · rfl
    · split
      · dsimp only
        split
        · rfl
        · exact toolCall_shape sessResp resp st "/v1/tools/swipe" "swipe_failed"
            "Unknown swipe error" "swipe executed" rfl hu
      · rfl
  · intro sessResp resp st x y hu
    unfold tapCall
    split
    · rfl
    · exact toolCall_shape sessResp resp st _ _ _ _ rfl hu

/-- C4 counterexample: a `tap` whose backend reply is
`\x7b"status": "failed", "error": ""\x7d` returns a `RunResult` with
`success=False` and the empty string as `error_code` — `success ==
false` with an empty `error_code`, violating the claimed shape
invariant. -/
theorem claim_C4_cex :
    (tapCall .timeout respC4 stActive (.int 1) (.int 2)).2.2 = rrC4 ∧
    rrC4.success = false ∧ rrC4.error_code = .str "" ∧ shapeOK rrC4 = false :=
  ⟨rfl, rfl, rfl, rfl⟩

/-- C4 witness: the invariant theorem applied at concrete inputs — an
invalid-argument `run_task` return, and a `tap` failure whose backend
body carries the non-empty error code `tap_refused`. -/
theorem claim_C4_witness :
    shapeOK (invalidArgResult "ERROR: run_task(query) requires a non-empty string") = true ∧
    shapeOK (tapCall .timeout respOkC4 stActive (.int 1) (.int 2)).2.2 = true :=
  ⟨claim_C4.1 .timeout .timeout freshState .none freshState []
      (invalidArgResult "ERROR: run_task(query) requires a non-empty string") rfl,
    claim_C4.2.2.2.2.2.2.2.2.2.2 .timeout respOkC4 stActive (.int 1) (.int 2)
      errFieldUsable_respOkC4⟩

end Bluestacks
